import Mathlib

/-!
Shallow embedding of the swapchain-override ReShade addon
(`src/config.h`, `Config::load` in the config translation unit,
`src/swapchain_manager.{h,cpp}`, `src/window_hooks.cpp`).

Handles (HWND, device, resource, resource_view, pipeline, ...) are modelled
as `Nat`, with `0` playing the role of the null handle, matching the
`handle == 0` null checks in the source.  The two `std::unordered_map`
tables of `SwapchainManager` are modelled as association lists with
first-match lookup.  GPU object creation is modelled by a `GpuState` that
hands out fresh nonzero handles and logs every creation, together with a
failure oracle `failAt : Nat → Bool` indexed by the running count of
creation calls, so that partial-failure behaviour of
`SwapchainManager::initialize_swapchain` can be analysed faithfully.
-/

namespace SwapchainOverride

/-- Association-list lookup with first-match semantics, modelling
`std::unordered_map::find`. -/
def getEntry {α : Type} : List (Nat × α) → Nat → Option α
  | [], _ => none
  | (k, v) :: rest, key => if k = key then some v else getEntry rest key

/-- Association-list insert-or-assign, modelling `map[key] = value`. -/
def setEntry {α : Type} : List (Nat × α) → Nat → α → List (Nat × α)
  | [], key, v => [(key, v)]
  | (k, w) :: rest, key, v =>
    if k = key then (key, v) :: rest else (k, w) :: setEntry rest key v

/-- Association-list erase, modelling `map.erase(it)`. -/
def eraseEntry {α : Type} : List (Nat × α) → Nat → List (Nat × α)
  | [], _ => []
  | (k, w) :: rest, key => if k = key then rest else (k, w) :: eraseEntry rest key

/-- The `FullscreenMode` enum from `src/config.h`. -/
inductive FullscreenMode
  | Unchanged
  | Borderless
  | Exclusive
deriving DecidableEq, Repr

/-- The `Config` singleton's fields (`src/config.h`).  The field initializers
of the class are `force_width_ = 0`, `force_height_ = 0`,
`scaling_filter_ = linear`, `fullscreen_mode_ = Unchanged`,
`block_fullscreen_changes_ = false`, `target_monitor_ = 0`; a fresh instance
is `freshConfig` below. -/
structure Config where
  force_width : Nat
  force_height : Nat
  scaling_filter : Nat
  fullscreen_mode : FullscreenMode
  block_fullscreen_changes : Bool
  target_monitor : Nat
deriving DecidableEq, Repr

/-- A `Config` as constructed by the field initializers in `src/config.h`
(lines 49-54): forced resolution 0x0, linear filter, `Unchanged`, no
blocking, primary monitor. -/
def freshConfig : Config :=
  { force_width := 0, force_height := 0, scaling_filter := 1,
    fullscreen_mode := FullscreenMode.Unchanged,
    block_fullscreen_changes := false, target_monitor := 0 }

/-- `Config::is_override_enabled` from `src/config.h` line 36 (called
`is_resolution_override_enabled` at the final call sites in
`swapchain_manager.cpp`): `force_width_ != 0 && force_height_ != 0`. -/
def Config.is_resolution_override_enabled (c : Config) : Bool :=
  decide (c.force_width ≠ 0) && decide (c.force_height ≠ 0)

/-- Derived predicate `fullscreen_mode == FullscreenMode::Exclusive`. -/
def Config.is_exclusive_fullscreen_enabled (c : Config) : Bool :=
  match c.fullscreen_mode with
  | FullscreenMode.Exclusive => true
  | _ => false

/-- Derived predicate `fullscreen_mode == FullscreenMode::Borderless`. -/
def Config.is_borderless_fullscreen_enabled (c : Config) : Bool :=
  match c.fullscreen_mode with
  | FullscreenMode.Borderless => true
  | _ => false

/-- Base-10 `strtoul` on a digit-led string: consume the maximal digit
prefix, returning its value and the unconsumed remainder.  (The C
function additionally skips leading whitespace and an optional sign, which
never occur in the resolution strings considered here.) -/
def strtoulDigits : List Char → Nat → Nat × List Char
  | [], acc => (acc, [])
  | c :: rest, acc =>
    if c.isDigit then strtoulDigits rest (acc * 10 + (c.toNat - 48))
    else (acc, c :: rest)

/-- The `ForceSwapchainResolution` parser inside `Config::load`:
`width = strtoul(p)`, `width_terminator = *p++`, `height = strtoul(p)`,
accepted iff `width != 0 && height != 0 && width_terminator == 'x'`.
When `strtoul` consumes the whole string the terminator read is the
trailing NUL, which is not `'x'`; that case is `none` here. -/
def parseForceResolution (s : List Char) : Option (Nat × Nat) :=
  let pw := strtoulDigits s 0
  match pw.2 with
  | [] => none
  | t :: rest =>
    let ph := strtoulDigits rest 0
    if pw.1 ≠ 0 ∧ ph.1 ≠ 0 ∧ t = 'x' then some (pw.1, ph.1) else none

/-- The `ForceSwapchainResolution` block of `Config::load`: `stored` is
the value read from the config store (`none` when the key is absent).
If the key is present, a successful parse overwrites the in-memory pair
and a failed parse leaves it untouched; if the key is absent, the default
`3840x2160` is written back to the store and into the fields. -/
def loadForceResolution (stored : Option (List Char)) (fw fh : Nat) : Nat × Nat :=
  match stored with
  | some s =>
    match parseForceResolution s with
    | some wh => wh
    | none => (fw, fh)
  | none => (3840, 2160)

/-- `SwapchainManager::handle_set_fullscreen_state`
(`swapchain_manager.cpp` lines 749-801): `scNull` models
`swapchain_ptr == nullptr`, `fullscreen` is the requested state; returns
`true` to block the transition, `false` to allow it. -/
def handle_set_fullscreen_state (cfg : Config) (scNull : Bool) (fullscreen : Bool) : Bool :=
  if scNull then false
  else if cfg.is_exclusive_fullscreen_enabled then
    if fullscreen = false then true else false
  else if cfg.is_borderless_fullscreen_enabled then
    if fullscreen then true else false
  else if cfg.block_fullscreen_changes then true
  else false

/-- The kind of a GPU object handed out by the modelled device, recording
for 2D textures the width/height of the descriptor they were created
from. -/
inductive GpuObjKind
  | tex (w h : Nat)
  | rtv
  | srv
  | pipelineLayout
  | pipelineObj
  | samplerObj
deriving DecidableEq, Repr

/-- A GPU object: its (nonzero) handle and its kind. -/
structure GpuObject where
  handle : Nat
  kind : GpuObjKind
deriving DecidableEq, Repr

/-- State of the modelled graphics device: a fresh-handle counter, a
running count of creation calls (used to index the failure oracle), the
currently live objects, and a log of every object ever created. -/
structure GpuState where
  nextHandle : Nat
  callIdx : Nat
  live : List GpuObject
  created : List GpuObject
deriving Repr

/-- One `device->create_*` call: consults the failure oracle at the current
call index; on success returns a fresh nonzero handle and records the
object as live and created. -/
def createObj (failAt : Nat → Bool) (k : GpuObjKind) (g : GpuState) :
    Option Nat × GpuState :=
  if failAt g.callIdx then
    (none, { g with callIdx := g.callIdx + 1 })
  else
    let h := g.nextHandle + 1
    (some h,
      { nextHandle := h, callIdx := g.callIdx + 1,
        live := g.live ++ [⟨h, k⟩], created := g.created ++ [⟨h, k⟩] })

/-- One `device->destroy_*` call: removes the handle from the live set. -/
def destroyObj (h : Nat) (g : GpuState) : GpuState :=
  { g with live := g.live.filter (fun o => o.handle ≠ h) }

/-- Destroy a handle only if it is nonzero, matching the
`if (x.handle != 0) destroy(x)` pattern of `SwapchainData::cleanup`. -/
def destroyIfNonzero (h : Nat) (g : GpuState) : GpuState :=
  if h ≠ 0 then destroyObj h g else g

/-- Destroy every nonzero handle of a vector, matching the destruction
loops of `SwapchainData::cleanup`. -/
def destroyList (hs : List Nat) (g : GpuState) : GpuState :=
  hs.foldl (fun g h => destroyIfNonzero h g) g

/-- `PendingSwapchainInfo` from `swapchain_manager.h`. -/
structure PendingSwapchainInfo where
  original_width : Nat
  original_height : Nat
deriving DecidableEq, Repr

/-- `SwapchainData` from `swapchain_manager.h`: handles are `Nat` with `0`
as the null handle, the four vectors are lists of handles, and
`device_id = none` models a null `device_ptr`. -/
structure SwapchainData where
  original_width : Nat
  original_height : Nat
  actual_width : Nat
  actual_height : Nat
  override_active : Bool
  proxy_textures : List Nat
  proxy_rtvs : List Nat
  proxy_srvs : List Nat
  actual_back_buffers : List Nat
  copy_pipeline : Nat
  copy_pipeline_layout : Nat
  copy_sampler : Nat
  device_id : Option Nat
deriving DecidableEq, Repr

/-- A default-constructed `SwapchainData` (`new SwapchainData()`). -/
def emptySwapchainData : SwapchainData :=
  { original_width := 0, original_height := 0, actual_width := 0, actual_height := 0,
    override_active := false, proxy_textures := [], proxy_rtvs := [], proxy_srvs := [],
    actual_back_buffers := [], copy_pipeline := 0, copy_pipeline_layout := 0,
    copy_sampler := 0, device_id := none }

/-- `SwapchainData::cleanup` (`swapchain_manager.cpp` lines 29-71): when a
device pointer is set, destroy the pipeline objects and every nonzero view
and texture handle, then null the pipeline fields and clear the four
vectors.  Note that `override_active` is NOT touched. -/
def SwapchainData.cleanup (d : SwapchainData) (g : GpuState) :
    SwapchainData × GpuState :=
  let g :=
    match d.device_id with
    | none => g
    | some _ =>
      let g := destroyIfNonzero d.copy_pipeline g
      let g := destroyIfNonzero d.copy_pipeline_layout g
      let g := destroyIfNonzero d.copy_sampler g
      let g := destroyList d.proxy_rtvs g
      let g := destroyList d.proxy_srvs g
      destroyList d.proxy_textures g
  ({ d with copy_pipeline := 0, copy_pipeline_layout := 0, copy_sampler := 0,
            proxy_rtvs := [], proxy_srvs := [], proxy_textures := [],
            actual_back_buffers := [] }, g)

/-- `SwapchainData::find_proxy_index` (`swapchain_manager.cpp` lines 14-22):
index of the first snapshotted back-buffer handle equal to the resolved
resource, `none` for the C++ `-1`. -/
def findHandleIdx : List Nat → Nat → Option Nat
  | [], _ => none
  | b :: rest, r =>
    if b = r then some 0 else (findHandleIdx rest r).map (fun i => i + 1)

/-- First override-active record whose `device_ptr` matches, i.e.
`SwapchainManager::find_active_data_for_device`. -/
def findActiveAux (dev : Nat) : List (Nat × SwapchainData) → Option SwapchainData
  | [] => none
  | (_, d) :: rest =>
    if d.override_active = true ∧ d.device_id = some dev then some d
    else findActiveAux dev rest

/-- The two tables of `SwapchainManager`: the override-record table keyed
by native swapchain handle and the pending-creation table keyed by window
handle. -/
structure ManagerState where
  swapchain_data : List (Nat × SwapchainData)
  pending_swapchains : List (Nat × PendingSwapchainInfo)
deriving Repr

/-- `SwapchainManager::find_active_data_for_device`
(`swapchain_manager.cpp` lines 321-332). -/
def find_active_data_for_device (st : ManagerState) (dev : Nat) : Option SwapchainData :=
  findActiveAux dev st.swapchain_data

/-- `SwapchainManager::store_pending_info`: `pending_swapchains_[hwnd] = info`. -/
def store_pending_info (st : ManagerState) (hwnd w h : Nat) : ManagerState :=
  { st with pending_swapchains :=
      setEntry st.pending_swapchains hwnd ⟨w, h⟩ }

/-- `SwapchainManager::retrieve_pending_info`: read-and-erase of the
pending entry for a window handle. -/
def retrieve_pending_info (st : ManagerState) (hwnd : Nat) :
    Option PendingSwapchainInfo × ManagerState :=
  match getEntry st.pending_swapchains hwnd with
  | some info =>
    (some info, { st with pending_swapchains := eraseEntry st.pending_swapchains hwnd })
  | none => (none, st)

/-- The observable inputs of a `reshade::api::swapchain*` used by
`initialize_swapchain` / `create_proxy_resources`: device pointer,
back-buffer count, per-index back-buffer handles, the descriptor of back
buffer 0 (width/height/format), the native handle and the window handle
(`0` = null HWND). -/
structure SwapchainModel where
  device_id : Option Nat
  back_buffer_count : Nat
  back_buffer : Nat → Nat
  bb_width : Nat
  bb_height : Nat
  bb_format : Nat
  native_handle : Nat
  hwnd : Nat

/-- The texture+RTV creation loop of `create_proxy_resources`
(`swapchain_manager.cpp` lines 194-223), iterated for the given remaining
count.  The C++ loop fills pre-sized (zero-initialized) vectors from index
0 upwards; the model returns the filled prefixes, which the caller pads
back to full length with the zero entries left by `resize`.  The returned
flag is false as soon as one creation fails, leaving a partially filled
pair of prefixes exactly as the source leaves partially filled vectors. -/
def proxyTexLoop (failAt : Nat → Bool) (ow oh : Nat) :
    Nat → GpuState → Bool × List Nat × List Nat × GpuState
  | 0, g => (true, [], [], g)
  | k + 1, g =>
    match createObj failAt (GpuObjKind.tex ow oh) g with
    | (none, g) => (false, [], [], g)
    | (some ht, g) =>
      match createObj failAt GpuObjKind.rtv g with
      | (none, g) => (false, [ht], [], g)
      | (some hv, g) =>
        let r := proxyTexLoop failAt ow oh k g
        (r.1, ht :: r.2.1, hv :: r.2.2.1, r.2.2.2)

/-- The SRV creation loop of `create_proxy_resources`
(`swapchain_manager.cpp` lines 227-241). -/
def proxySrvLoop (failAt : Nat → Bool) :
    Nat → GpuState → Bool × List Nat × GpuState
  | 0, g => (true, [], g)
  | k + 1, g =>
    match createObj failAt GpuObjKind.srv g with
    | (none, g) => (false, [], g)
    | (some hs, g) =>
      let r := proxySrvLoop failAt k g
      (r.1, hs :: r.2.1, r.2.2)

/-- `SwapchainManager::create_proxy_resources` (`swapchain_manager.cpp`
lines 180-250): proxy textures are created at
`original_width x original_height`; `proxy_textures`, `proxy_rtvs` and
`actual_back_buffers` are resized (zero-filled) up front, `proxy_srvs`
only after the first loop succeeds; on success the real back-buffer
handles are snapshotted. -/
def create_proxy_resources (failAt : Nat → Bool) (d : SwapchainData)
    (sc : SwapchainModel) (g : GpuState) : Bool × SwapchainData × GpuState :=
  let n := sc.back_buffer_count
  let r1 := proxyTexLoop failAt d.original_width d.original_height n g
  let texs := r1.2.1 ++ List.replicate (n - r1.2.1.length) 0
  let rtvs := r1.2.2.1 ++ List.replicate (n - r1.2.2.1.length) 0
  let d := { d with proxy_textures := texs, proxy_rtvs := rtvs,
                    actual_back_buffers := List.replicate n 0 }
  if r1.1 = false then (false, d, r1.2.2.2)
  else
    let r2 := proxySrvLoop failAt n r1.2.2.2
    let srvs := r2.2.1 ++ List.replicate (n - r2.2.1.length) 0
    let d := { d with proxy_srvs := srvs }
    if r2.1 = false then (false, d, r2.2.2)
    else
      (true, { d with actual_back_buffers := (List.range n).map sc.back_buffer },
       r2.2.2)

/-- `SwapchainManager::create_copy_pipeline` (`swapchain_manager.cpp`
lines 252-297): pipeline layout, then pipeline, then sampler, failing
fast and leaving the already-assigned fields in place. -/
def create_copy_pipeline (failAt : Nat → Bool) (d : SwapchainData)
    (g : GpuState) : Bool × SwapchainData × GpuState :=
  match createObj failAt GpuObjKind.pipelineLayout g with
  | (none, g) => (false, d, g)
  | (some hl, g) =>
    let d := { d with copy_pipeline_layout := hl }
    match createObj failAt GpuObjKind.pipelineObj g with
    | (none, g) => (false, d, g)
    | (some hp, g) =>
      let d := { d with copy_pipeline := hp }
      match createObj failAt GpuObjKind.samplerObj g with
      | (none, g) => (false, d, g)
      | (some hs, g) => (true, { d with copy_sampler := hs }, g)

/-- The resource-building tail of `SwapchainManager::initialize_swapchain`
(`swapchain_manager.cpp` lines 157-177), starting from the record `d`
whose device/actual size/`override_active`/original size have already
been assigned: build the proxy resources and the copy pipeline, running
`d.cleanup()` and returning failure on any creation error; the (possibly
cleaned) record is stored in the table in every case, mirroring the
in-place mutation of the heap record already inserted into the map. -/
def initialize_swapchain_build (failAt : Nat → Bool) (sc : SwapchainModel)
    (st : ManagerState) (d : SwapchainData) (g : GpuState) :
    Bool × ManagerState × GpuState :=
  let r1 := create_proxy_resources failAt d sc g
  if r1.1 = false then
    let r := r1.2.1.cleanup r1.2.2
    (false,
     { st with swapchain_data := setEntry st.swapchain_data sc.native_handle r.1 },
     r.2)
  else
    let r2 := create_copy_pipeline failAt r1.2.1 r1.2.2
    if r2.1 = false then
      let r := r2.2.1.cleanup r2.2.2
      (false,
       { st with swapchain_data := setEntry st.swapchain_data sc.native_handle r.1 },
       r.2)
    else
      (true,
       { st with swapchain_data := setEntry st.swapchain_data sc.native_handle r2.2.1 },
       r2.2.2)

/-- `SwapchainManager::initialize_swapchain` (`swapchain_manager.cpp`
lines 103-178).  `scNull` models `swapchain_ptr == nullptr`.  An existing
record for the native handle is cleaned up first (resize path); the
record's device/actual size/`override_active = true` are assigned BEFORE
any resource creation; the pending entry for the window handle is
consumed (falling back to 1920x1080); the build tail then creates the
GPU objects with fail-fast cleanup. -/
def initialize_swapchain (failAt : Nat → Bool) (scNull : Bool)
    (sc : SwapchainModel) (st : ManagerState) (g : GpuState) :
    Bool × ManagerState × GpuState :=
  if scNull then (false, st, g)
  else
    match sc.device_id with
    | none => (false, st, g)
    | some dev =>
      if sc.back_buffer_count = 0 then (false, st, g)
      else
        let p :=
          match getEntry st.swapchain_data sc.native_handle with
          | some old => old.cleanup g
          | none => (emptySwapchainData, g)
        let d := { p.1 with device_id := some dev, actual_width := sc.bb_width,
                            actual_height := sc.bb_height, override_active := true }
        let q := retrieve_pending_info st sc.hwnd
        let st := q.2
        let d :=
          match q.1 with
          | some info =>
            { d with original_width := info.original_width,
                     original_height := info.original_height }
          | none => { d with original_width := 1920, original_height := 1080 }
        initialize_swapchain_build failAt sc st d p.2

/-- The mutable fields of `reshade::api::swapchain_desc` touched by
`handle_create_swapchain`: back-buffer width/height, the requested
fullscreen state and the present-flags bitmask. -/
structure SwapchainDesc where
  back_buffer_width : Nat
  back_buffer_height : Nat
  fullscreen_state : Bool
  present_flags : Nat
deriving DecidableEq, Repr

/-- `SwapchainManager::handle_create_swapchain` (`swapchain_manager.cpp`
lines 619-687).  `hwnd = 0` models a null window handle.  The
mode-switch flag is `DXGI_SWAP_CHAIN_FLAG_ALLOW_MODE_SWITCH = 0x2`;
clearing it is modelled by subtracting 2 when bit 1 is set, which equals
the source's `flags &= ~0x2`.  Returns (modified, new desc, new manager
state). -/
def handle_create_swapchain (cfg : Config) (desc : SwapchainDesc) (hwnd : Nat)
    (st : ManagerState) : Bool × SwapchainDesc × ManagerState :=
  let step1 :=
    if cfg.is_resolution_override_enabled = true ∧
       (desc.back_buffer_width ≠ cfg.force_width ∨
        desc.back_buffer_height ≠ cfg.force_height) then
      let st :=
        if hwnd ≠ 0 then
          store_pending_info st hwnd desc.back_buffer_width desc.back_buffer_height
        else st
      (true,
       { desc with back_buffer_width := cfg.force_width,
                   back_buffer_height := cfg.force_height }, st)
    else (false, desc, st)
  let modified := step1.1
  let desc := step1.2.1
  let st := step1.2.2
  if cfg.is_exclusive_fullscreen_enabled then
    if Nat.land desc.present_flags 2 = 0 then
      (true, { desc with present_flags := Nat.lor desc.present_flags 2 }, st)
    else (modified, desc, st)
  else if cfg.is_borderless_fullscreen_enabled then
    let p2 :=
      if desc.fullscreen_state then
        (true, { desc with fullscreen_state := false })
      else (modified, desc)
    let modified := p2.1
    let desc := p2.2
    if Nat.land desc.present_flags 2 ≠ 0 then
      (true, { desc with present_flags := desc.present_flags - 2 }, st)
    else (modified, desc, st)
  else (modified, desc, st)

/-- `SwapchainManager::handle_init_swapchain` (`swapchain_manager.cpp`
lines 689-747): skipped for a null swapchain, when resolution override is
disabled, or when the window handle is null; otherwise it runs
`initialize_swapchain`.  The optional native exclusive-fullscreen
transition that follows (`SetFullscreenState` on a DXGI swapchain) only
logs and changes no addon-side state, so it has no effect on this model's
state. -/
def handle_init_swapchain (failAt : Nat → Bool) (cfg : Config) (scNull : Bool)
    (sc : SwapchainModel) (is_resize : Bool) (st : ManagerState) (g : GpuState) :
    ManagerState × GpuState :=
  if scNull then (st, g)
  else if cfg.is_resolution_override_enabled = false then (st, g)
  else if sc.hwnd = 0 then (st, g)
  else
    let r := initialize_swapchain failAt false sc st g
    (r.2.1, r.2.2)

/-- Whether the per-element body of `handle_bind_render_targets` takes the
substitution branch for a given bound view handle: the view is nonzero,
resolves to a nonzero resource, the device has an active override record,
and the resource matches a snapshotted back buffer. -/
def rtvSubstituted (st : ManagerState) (dev : Nat) (resOfView : Nat → Nat)
    (v : Nat) : Bool :=
  if v = 0 then false
  else
    let r := resOfView v
    if r = 0 then false
    else
      match find_active_data_for_device st dev with
      | none => false
      | some data => (findHandleIdx data.actual_back_buffers r).isSome

/-- The per-element transformation of `handle_bind_render_targets`: on a
match, the view is replaced by the proxy RTV at the matched index
(`modified_rtvs[i] = data->proxy_rtvs[proxy_index]`). -/
def substituteRtv (st : ManagerState) (dev : Nat) (resOfView : Nat → Nat)
    (v : Nat) : Nat :=
  if v = 0 then v
  else
    let r := resOfView v
    if r = 0 then v
    else
      match find_active_data_for_device st dev with
      | none => v
      | some data =>
        match findHandleIdx data.actual_back_buffers r with
        | some j => data.proxy_rtvs.getD j 0
        | none => v

/-- `SwapchainManager::handle_bind_render_targets` (`swapchain_manager.cpp`
lines 347-398).  `cmdNull` models `cmd_list == nullptr`, `dev` the result
of `cmd_list->get_device()` (`none` = null) and `resOfView` the device's
`get_resource_from_view`.  The result is `some (rtvs, dsv)` exactly when
the source reissues `bind_render_targets_and_depth_stencil` with the
substituted array, and `none` when no rebind happens.  (The source calls
`find_active_data_for_device` inside the loop; the manager state is not
mutated by the loop, so hoisting it into the two helpers above is
behaviour-preserving.) -/
def handle_bind_render_targets (st : ManagerState) (cmdNull : Bool)
    (dev : Option Nat) (resOfView : Nat → Nat) (rtvs : List Nat) (dsv : Nat) :
    Option (List Nat × Nat) :=
  if cmdNull then none
  else if rtvs.isEmpty then none
  else
    match dev with
    | none => none
    | some d =>
      if rtvs.any (rtvSubstituted st d resOfView) then
        some (rtvs.map (substituteRtv st d resOfView), dsv)
      else none

/-- `reshade::api::viewport`, with coordinates in `ℚ` standing for the
source's `float` fields (see `viewportMatches` for why this is exact at
the sizes the claims are about). -/
structure Viewport where
  x : ℚ
  y : ℚ
  width : ℚ
  height : ℚ
  min_depth : ℚ
  max_depth : ℚ
deriving DecidableEq, Repr

/-- The 90%-tolerance classification of `handle_bind_viewports`
(`swapchain_manager.cpp` lines 436-437):
`width >= actual_width * 0.9f && height >= actual_height * 0.9f`.
The model computes in `ℚ`.  For the actual sizes relevant here this is
exact in IEEE single precision too: `0.9f` is 15099494 * 2^-24, and both
`3840 * 0.9f` and `2160 * 0.9f` round to exactly `3456.0f` and `1944.0f`
(the exact products are within a quarter ulp of those values), so the
float comparison against them coincides with the rational comparison
against 3456 and 1944 for every representable viewport size. -/
def viewportMatches (d : SwapchainData) (vp : Viewport) : Bool :=
  decide ((d.actual_width : ℚ) * (9 / 10) ≤ vp.width) &&
  decide ((d.actual_height : ℚ) * (9 / 10) ≤ vp.height)

/-- The rescaling of a classified viewport (`swapchain_manager.cpp` lines
442-445): x and width are multiplied by `scale_x`, y and height by
`scale_y`; the depth range is untouched. -/
def rescaleViewport (sx sy : ℚ) (vp : Viewport) : Viewport :=
  { vp with x := vp.x * sx, y := vp.y * sy,
            width := vp.width * sx, height := vp.height * sy }

/-- `SwapchainManager::handle_bind_viewports` (`swapchain_manager.cpp`
lines 400-455).  `first` is forwarded unchanged on the rebind, which is
modelled by the `some` result; `none` means no rebind. -/
def handle_bind_viewports (cfg : Config) (st : ManagerState) (cmdNull : Bool)
    (dev : Option Nat) (first : Nat) (vps : List Viewport) :
    Option (Nat × List Viewport) :=
  if cmdNull then none
  else if vps.isEmpty then none
  else if cfg.is_resolution_override_enabled = false then none
  else
    match dev with
    | none => none
    | some d =>
      match find_active_data_for_device st d with
      | none => none
      | some data =>
        let sx : ℚ := (data.original_width : ℚ) / (data.actual_width : ℚ)
        let sy : ℚ := (data.original_height : ℚ) / (data.actual_height : ℚ)
        if vps.any (viewportMatches data) then
          some (first, vps.map (fun vp =>
            if viewportMatches data vp then rescaleViewport sx sy vp else vp))
        else none

/-- The observable inputs of `handle_present` (`swapchain_manager.cpp`
lines 516-617): nullness of queue, swapchain, device and immediate
command list, the native swapchain handle, the current back-buffer index,
the per-index real back-buffer handles, and whether the ephemeral
back-buffer RTV creation succeeds. -/
structure PresentContext where
  queueNull : Bool
  scNull : Bool
  deviceNull : Bool
  native_handle : Nat
  current_index : Nat
  back_buffer : Nat → Nat
  cmdListNull : Bool
  rtvCreateOk : Bool

/-- `SwapchainManager::handle_present`: returns `true` exactly when the
guard cascade is fully passed and the compositing commands (barriers,
pipeline bind, descriptors, render-target bind, viewport, draw) are
recorded on the immediate command list; every early return yields
`false`.  Vector accesses use `getD _ 0`, so an out-of-range index reads
the null handle. -/
def handle_present (st : ManagerState) (p : PresentContext) : Bool :=
  if p.scNull || p.queueNull then false
  else
    match getEntry st.swapchain_data p.native_handle with
    | none => false
    | some data =>
      if data.override_active = false then false
      else if p.deviceNull then false
      else if data.proxy_textures.length ≤ p.current_index then false
      else
        let proxy_texture := data.proxy_textures.getD p.current_index 0
        let actual_back_buffer := p.back_buffer p.current_index
        if proxy_texture = 0 ∨ actual_back_buffer = 0 then false
        else if p.cmdListNull then false
        else
          let proxy_srv := data.proxy_srvs.getD p.current_index 0
          if proxy_srv = 0 then false
          else if p.rtvCreateOk = false then false
          else true

/-- `MonitorEnumData` from `window_hooks.h`. -/
structure MonitorEnumData where
  target_index : Nat
  current_index : Nat
  found_monitor : Option Nat
deriving DecidableEq, Repr

/-- `EnumDisplayMonitors` driving `WindowHooks::MonitorEnumProc`
(`window_hooks.cpp` lines 456-466): monitors are visited in enumeration
order; the callback stops enumeration (returns FALSE) when the running
counter equals the target index, else increments the counter. -/
def monitorEnumRun : List Nat → MonitorEnumData → MonitorEnumData
  | [], d => d
  | m :: rest, d =>
    if d.current_index = d.target_index then { d with found_monitor := some m }
    else monitorEnumRun rest { d with current_index := d.current_index + 1 }

/-- Result of `WindowHooks::get_target_monitor_rect`: the monitor whose
rectangle is queried, the index named in the fallback warning (if one was
logged), and the rectangle written to `out_rect` (`none` iff the function
returned false). -/
structure MonitorLookupResult where
  target_monitor : Option Nat
  warned_index : Option Nat
  out_rect : Option (Int × Int × Int × Int)
deriving DecidableEq, Repr

/-- The tail of `get_target_monitor_rect`: query `GetMonitorInfo` on the
chosen monitor (modelled by `rectOf`, `none` = the call failed or the
monitor was null). -/
def monitorLookupFinish (tm : Option Nat) (warned : Option Nat)
    (rectOf : Nat → Option (Int × Int × Int × Int)) : MonitorLookupResult :=
  { target_monitor := tm, warned_index := warned,
    out_rect := match tm with
                | some h => rectOf h
                | none => none }

/-- `WindowHooks::get_target_monitor_rect` (`window_hooks.cpp` lines
468-512): target 0 is the primary-monitor lookup
(`MonitorFromPoint({0,0}, MONITOR_DEFAULTTOPRIMARY)`, modelled by
`primary`); otherwise the monitors are enumerated with the counter
starting at 0, and if no monitor is found the primary is used and a
warning naming the configured index is logged. -/
def get_target_monitor_rect (cfg : Config) (monitors : List Nat)
    (primary : Option Nat) (rectOf : Nat → Option (Int × Int × Int × Int)) :
    MonitorLookupResult :=
  if cfg.target_monitor = 0 then
    monitorLookupFinish primary none rectOf
  else
    let d := monitorEnumRun monitors
      { target_index := cfg.target_monitor, current_index := 0, found_monitor := none }
    match d.found_monitor with
    | some m => monitorLookupFinish (some m) none rectOf
    | none => monitorLookupFinish primary (some cfg.target_monitor) rectOf

/-- The `WindowHooks` singleton's state (`window_hooks.h` /
`window_hooks.cpp`): the addon instance counter, the `hooks_installed_`
flag, and the hook handles (one `Bool` per hook slot, `true` = a live
SafetyHook object; the empty list is the all-null initial/reset state). -/
structure HookState where
  addon_instance_count : Nat
  hooks_installed : Bool
  hooks : List Bool
deriving DecidableEq, Repr

/-- The state of `WindowHooks` before any call: counter 0, not installed,
all hook handles null. -/
def initialHookState : HookState :=
  { addon_instance_count := 0, hooks_installed := false, hooks := [] }

/-- `WindowHooks::install` (`window_hooks.cpp` lines 353-409).
`outcomes` gives the success of each `safetyhook::create_inline` call in
order (the hook set has 9 entries in 64-bit builds, 7 in 32-bit ones; the
model is parametric in the list).  The counter is always incremented; the
hook set is only attached when hooks are not already installed and
borderless mode is configured; `hooks_installed_` becomes true only when
every hook attached, but partially attached hooks stay in place on
failure. -/
def WindowHooks_install (cfg : Config) (outcomes : List Bool) (s : HookState) :
    Bool × HookState :=
  let s := { s with addon_instance_count := s.addon_instance_count + 1 }
  if s.hooks_installed then (true, s)
  else if cfg.is_borderless_fullscreen_enabled = false then (true, s)
  else
    let s := { s with hooks := outcomes }
    if outcomes.all (fun b => b) then (true, { s with hooks_installed := true })
    else (false, s)

/-- `WindowHooks::uninstall` (`window_hooks.cpp` lines 411-454).  The
counter is decremented but never below zero (which is exactly `Nat`
truncated subtraction); the hook handles are reset, and the installed
flag cleared, only when the counter has reached zero AND the hooks were
marked installed. -/
def WindowHooks_uninstall (s : HookState) : HookState :=
  let s := { s with addon_instance_count := s.addon_instance_count - 1 }
  if 0 < s.addon_instance_count then s
  else if s.hooks_installed = false then s
  else { s with hooks := [], hooks_installed := false }

/-- A call into the hook registry: `install` (with its per-hook attach
outcomes) or `uninstall`. -/
inductive HookOp
  | installOp (cfg : Config) (outcomes : List Bool)
  | uninstallOp

/-- Run a sequence of install/uninstall calls against a hook state. -/
def runHookOps : HookState → List HookOp → HookState
  | s, [] => s
  | s, HookOp.installOp cfg outs :: rest => runHookOps (WindowHooks_install cfg outs s).2 rest
  | s, HookOp.uninstallOp :: rest => runHookOps (WindowHooks_uninstall s) rest

/-! Theorems. -/

/-- C4: with a non-null swapchain, `handle_set_fullscreen_state` returns
exactly the arbitration table's block/allow decision — Exclusive blocks a
request to windowed and allows a request to fullscreen, Borderless blocks
a request to fullscreen and allows a request to windowed, and Unchanged
returns `block_fullscreen_changes` for both request directions. -/
theorem C4_fullscreen_arbitration_table (fw fh sf tm : Nat) (block : Bool) :
    handle_set_fullscreen_state
        ⟨fw, fh, sf, FullscreenMode.Exclusive, block, tm⟩ false false = true
  ∧ handle_set_fullscreen_state
        ⟨fw, fh, sf, FullscreenMode.Exclusive, block, tm⟩ false true = false
  ∧ handle_set_fullscreen_state
        ⟨fw, fh, sf, FullscreenMode.Borderless, block, tm⟩ false true = true
  ∧ handle_set_fullscreen_state
        ⟨fw, fh, sf, FullscreenMode.Borderless, block, tm⟩ false false = false
  ∧ (∀ req : Bool, handle_set_fullscreen_state
        ⟨fw, fh, sf, FullscreenMode.Unchanged, block, tm⟩ false req = block) := by
  refine ⟨rfl, rfl, rfl, rfl, fun req => ?_⟩
  cases block <;> rfl

/-- C3 counterexample: with the `ForceSwapchainResolution` key present but
holding the malformed value "0x2160" (zero width component), a fresh
`Config` (field initializers 0x0) still holds 0x0 after `load()`, not the
3840x2160 the claim asserts; the same happens for the wrong-separator
value "1920y1080". -/
theorem C3_counterexample :
    loadForceResolution (some ('0' :: 'x' :: '2' :: '1' :: '6' :: '0' :: []))
        freshConfig.force_width freshConfig.force_height = (0, 0)
  ∧ loadForceResolution (some ('0' :: 'x' :: '2' :: '1' :: '6' :: '0' :: []))
        freshConfig.force_width freshConfig.force_height ≠ (3840, 2160)
  ∧ loadForceResolution
        (some ('1' :: '9' :: '2' :: '0' :: 'y' :: '1' :: '0' :: '8' :: '0' :: []))
        freshConfig.force_width freshConfig.force_height ≠ (3840, 2160) := by
  refine ⟨rfl, ?_, ?_⟩ <;> decide

/-- C3 (amended): when the `ForceSwapchainResolution` key is present but
malformed (its parse is rejected), `Config::load` leaves the in-memory
forced resolution at whatever it previously was — on a fresh `Config`
that is the field-initializer value 0x0 (override disabled), not
3840x2160; the 3840x2160 default is applied only when the key is entirely
absent. -/
theorem C3_malformed_config_keeps_previous_value :
    (∀ s fw fh, parseForceResolution s = none →
       loadForceResolution (some s) fw fh = (fw, fh))
  ∧ (∀ s, parseForceResolution s = none →
       loadForceResolution (some s) freshConfig.force_width freshConfig.force_height
         = (0, 0))
  ∧ (∀ fw fh, loadForceResolution none fw fh = (3840, 2160)) := by
  refine ⟨?_, ?_, ?_⟩
  · intro s fw fh h
    simp [loadForceResolution, h]
  · intro s h
    simp [loadForceResolution, h, freshConfig]
  · intro fw fh
    rfl

/-- C3 witness: instantiation of the amended theorem at the malformed
value "0x2160" and a fresh configuration. -/
theorem C3_malformed_config_witness :
    parseForceResolution ('0' :: 'x' :: '2' :: '1' :: '6' :: '0' :: []) = none
  ∧ loadForceResolution (some ('0' :: 'x' :: '2' :: '1' :: '6' :: '0' :: [])) 7 9
      = (7, 9) :=
  ⟨by decide,
   C3_malformed_config_keeps_previous_value.1
     ('0' :: 'x' :: '2' :: '1' :: '6' :: '0' :: []) 7 9 (by decide)⟩

/-- C7 counterexample: with resolution override disabled
(`ForceSwapchainResolution=0x0`) but `FullscreenMode=Exclusive`,
`handle_create_swapchain` still modifies the description (it sets the
allow-mode-switch present flag) and returns true, contradicting the claim
that no description field is ever modified and the handler returns
false. -/
theorem C7_counterexample :
    (handle_create_swapchain
        ⟨0, 0, 1, FullscreenMode.Exclusive, false, 0⟩
        ⟨1920, 1080, false, 0⟩ 5 ⟨[], []⟩).1 = true
  ∧ (handle_create_swapchain
        ⟨0, 0, 1, FullscreenMode.Exclusive, false, 0⟩
        ⟨1920, 1080, false, 0⟩ 5 ⟨[], []⟩).2.1.present_flags = 2
  ∧ (handle_create_swapchain
        ⟨0, 0, 1, FullscreenMode.Exclusive, false, 0⟩
        ⟨1920, 1080, false, 0⟩ 5 ⟨[], []⟩).2.1 ≠ ⟨1920, 1080, false, 0⟩ := by
  refine ⟨rfl, rfl, ?_⟩
  decide

/-- C7 (amended): with resolution override disabled and
`FullscreenMode=Unchanged`, `handle_create_swapchain` modifies nothing
and returns false; with override disabled and ANY fullscreen mode, the
back-buffer width/height are never modified and no pending record is
stored (the manager state is unchanged), and `handle_init_swapchain`
does nothing at all — in particular no proxy resources are ever created —
but when the configured mode is Exclusive or Borderless the
`fullscreen_state`/`present_flags` fields may still be modified (and
true returned), as the counterexample shows. -/
theorem C7_disabled_override_no_op :
    (∀ cfg desc hwnd st, cfg.is_resolution_override_enabled = false →
       cfg.fullscreen_mode = FullscreenMode.Unchanged →
       handle_create_swapchain cfg desc hwnd st = (false, desc, st))
  ∧ (∀ cfg desc hwnd st, cfg.is_resolution_override_enabled = false →
       (handle_create_swapchain cfg desc hwnd st).2.1.back_buffer_width
           = desc.back_buffer_width
       ∧ (handle_create_swapchain cfg desc hwnd st).2.1.back_buffer_height
           = desc.back_buffer_height
       ∧ (handle_create_swapchain cfg desc hwnd st).2.2 = st)
  ∧ (∀ failAt cfg scNull sc is_resize st g,
       cfg.is_resolution_override_enabled = false →
       handle_init_swapchain failAt cfg scNull sc is_resize st g = (st, g)) := by
  refine ⟨?_, ?_, ?_⟩
  · intro cfg desc hwnd st h hm
    unfold handle_create_swapchain
    simp only [h, Bool.false_eq_true, false_and, if_false]
    simp [Config.is_exclusive_fullscreen_enabled,
          Config.is_borderless_fullscreen_enabled, hm]
  · intro cfg desc hwnd st h
    unfold handle_create_swapchain
    simp only [h, Bool.false_eq_true, false_and, if_false]
    cases hm : cfg.fullscreen_mode <;>
      simp [Config.is_exclusive_fullscreen_enabled,
            Config.is_borderless_fullscreen_enabled, hm] <;>
      split <;> simp_all <;> split <;> simp_all
  · intro failAt cfg scNull sc is_resize st g h
    unfold handle_init_swapchain
    simp [h]

/-- C7 witness: instantiation at a disabled-override, `Unchanged`
configuration and a concrete description. -/
theorem C7_disabled_override_witness :
    (freshConfig.is_resolution_override_enabled = false
       ∧ freshConfig.fullscreen_mode = FullscreenMode.Unchanged)
  ∧ handle_create_swapchain freshConfig ⟨800, 600, true, 6⟩ 5 ⟨[], []⟩
      = (false, ⟨800, 600, true, 6⟩, ⟨[], []⟩) :=
  ⟨⟨by decide, rfl⟩,
   C7_disabled_override_no_op.1 freshConfig ⟨800, 600, true, 6⟩ 5 ⟨[], []⟩
     (by decide) rfl⟩

/-- Behaviour of the monitor enumeration: starting with counter `c` and
target `t ≥ c`, the monitor found is the one at zero-based position
`t - c` of the enumeration order, or none when the enumeration ends
first. -/
theorem monitorEnumRun_found (ms : List Nat) :
    ∀ c t, c ≤ t →
      (monitorEnumRun ms ⟨t, c, none⟩).found_monitor =
        if t - c < ms.length then some (ms.getD (t - c) 0) else none := by
  induction ms with
  | nil =>
    intro c t h
    simp [monitorEnumRun]
  | cons m rest ih =>
    intro c t h
    by_cases hc : c = t
    · subst hc
      simp [monitorEnumRun, Nat.sub_self]
    · have hlt : c < t := lt_of_le_of_ne h hc
      simp only [monitorEnumRun, if_neg hc]
      rw [ih (c + 1) t hlt]
      have ht : t - c = (t - (c + 1)) + 1 := by omega
      by_cases hA : t - (c + 1) < rest.length
      · rw [if_pos hA, if_pos (by simp [ht]; omega)]
        rw [ht]
        simp [List.getD]
      · rw [if_neg hA, if_neg (by simp [ht]; omega)]

/-- C8: `get_target_monitor_rect` maps configured index 0 to the
primary-monitor lookup; a configured index n ≥ 1 selects the monitor at
zero-based enumeration position n (so index 1 is the second enumerated
monitor); and when the enumeration ends before position n the primary
monitor is used and a warning naming the requested index is logged. -/
theorem C8_monitor_index_mapping (cfg : Config) (monitors : List Nat)
    (primary : Option Nat) (rectOf : Nat → Option (Int × Int × Int × Int)) :
    (cfg.target_monitor = 0 →
       get_target_monitor_rect cfg monitors primary rectOf =
         monitorLookupFinish primary none rectOf)
  ∧ (∀ n, cfg.target_monitor = n → 1 ≤ n → n < monitors.length →
       get_target_monitor_rect cfg monitors primary rectOf =
         monitorLookupFinish (some (monitors.getD n 0)) none rectOf)
  ∧ (∀ n, cfg.target_monitor = n → 1 ≤ n → monitors.length ≤ n →
       get_target_monitor_rect cfg monitors primary rectOf =
         monitorLookupFinish primary (some n) rectOf) := by
  refine ⟨?_, ?_, ?_⟩
  · intro h
    simp [get_target_monitor_rect, h]
  · intro n hn h1 hlen
    have hz : ¬ cfg.target_monitor = 0 := by omega
    have he := monitorEnumRun_found monitors 0 cfg.target_monitor (Nat.zero_le _)
    rw [Nat.sub_zero] at he
    unfold get_target_monitor_rect
    rw [if_neg hz]
    dsimp only
    rw [he, if_pos (by omega : cfg.target_monitor < monitors.length)]
    rw [hn]
  · intro n hn h1 hlen
    have hz : ¬ cfg.target_monitor = 0 := by omega
    have he := monitorEnumRun_found monitors 0 cfg.target_monitor (Nat.zero_le _)
    rw [Nat.sub_zero] at he
    unfold get_target_monitor_rect
    rw [if_neg hz]
    dsimp only
    rw [he, if_neg (by omega : ¬ cfg.target_monitor < monitors.length)]
    rw [hn]

/-- C8 witness: two attached monitors 41 and 42, primary 41: index 1
selects monitor 42 (the second enumerated one), and index 5 falls back to
the primary with a warning naming 5. -/
theorem C8_monitor_index_witness :
    get_target_monitor_rect ⟨3840, 2160, 1, FullscreenMode.Borderless, false, 1⟩
        [41, 42] (some 41) (fun m => some (Int.ofNat m, 0, 0, 0)) =
      monitorLookupFinish (some 42) none (fun m => some (Int.ofNat m, 0, 0, 0))
  ∧ get_target_monitor_rect ⟨3840, 2160, 1, FullscreenMode.Borderless, false, 5⟩
        [41, 42] (some 41) (fun m => some (Int.ofNat m, 0, 0, 0)) =
      monitorLookupFinish (some 41) (some 5) (fun m => some (Int.ofNat m, 0, 0, 0)) :=
  ⟨(C8_monitor_index_mapping ⟨3840, 2160, 1, FullscreenMode.Borderless, false, 1⟩
      [41, 42] (some 41) (fun m => some (Int.ofNat m, 0, 0, 0))).2.1 1 rfl
      (by decide) (by decide),
   (C8_monitor_index_mapping ⟨3840, 2160, 1, FullscreenMode.Borderless, false, 5⟩
      [41, 42] (some 41) (fun m => some (Int.ofNat m, 0, 0, 0))).2.2 5 rfl
      (by decide) (by decide)⟩

/-- The hook-registry safety invariant is unconditionally re-established
by `install`: the counter was just incremented, so it is at least 1. -/
theorem hookState_install_count_pos (cfg : Config) (outs : List Bool) (s : HookState) :
    1 ≤ (WindowHooks_install cfg outs s).2.addon_instance_count := by
  unfold WindowHooks_install
  dsimp only
  split
  · simp
  · split
    · simp
    · split <;> simp

/-- The hook-registry safety invariant is unconditionally re-established
by `uninstall`: the hooks can only remain marked installed in the branch
where the decremented counter is still positive. -/
theorem hookState_uninstall_inv (s : HookState) :
    (WindowHooks_uninstall s).hooks_installed = true →
      1 ≤ (WindowHooks_uninstall s).addon_instance_count := by
  unfold WindowHooks_uninstall
  dsimp only
  split
  · intro _
    dsimp only
    omega
  · split
    · intro h2
      simp_all
    · intro h2
      simp at h2

/-- Trace form of the hook-registry invariant, from the initial state. -/
theorem runHookOps_installed_count (ops : List HookOp) :
    (runHookOps initialHookState ops).hooks_installed = true →
      1 ≤ (runHookOps initialHookState ops).addon_instance_count := by
  suffices h : ∀ ops s, (runHookOps s ops).hooks_installed = true →
      s.hooks_installed = false ∨ 1 ≤ s.addon_instance_count →
      1 ≤ (runHookOps s ops).addon_instance_count by
    intro hi
    exact h ops initialHookState hi (Or.inl rfl)
  intro ops
  induction ops with
  | nil =>
    intro s hi hs
    rcases hs with hs | hs
    · simp [runHookOps] at hi
      rw [hi] at hs
      cases hs
    · simpa [runHookOps] using hs
  | cons op rest ih =>
    intro s hi hs
    cases op with
    | installOp cfg outs =>
      refine ih _ ?_ ?_
      · simpa [runHookOps] using hi
      · exact Or.inr (hookState_install_count_pos cfg outs s)
    | uninstallOp =>
      refine ih _ ?_ ?_
      · simpa [runHookOps] using hi
      · by_cases hinst : (WindowHooks_uninstall s).hooks_installed = true
        · exact Or.inr (hookState_uninstall_inv s hinst)
        · exact Or.inl (by simpa using hinst)

/-- C9: every `install()` call increments the instance counter; when hooks
are already installed or borderless mode is not configured, `install()`
succeeds without touching the hook handles or the installed flag; the
hook handles are only (attempted to be) attached when neither holds;
every `uninstall()` decrements the counter, never below zero (`Nat`
subtraction), and only resets hook handles when the decremented counter
is zero; and along every call sequence from the initial state, the hook
set is attached (`hooks_installed_`) only while the counter is ≥ 1. -/
theorem C9_hook_registry_state_machine :
    (∀ cfg outs s, ((WindowHooks_install cfg outs s).2).addon_instance_count
        = s.addon_instance_count + 1)
  ∧ (∀ cfg outs s,
       s.hooks_installed = true ∨ cfg.is_borderless_fullscreen_enabled = false →
       (WindowHooks_install cfg outs s).1 = true
       ∧ (WindowHooks_install cfg outs s).2.hooks = s.hooks
       ∧ (WindowHooks_install cfg outs s).2.hooks_installed = s.hooks_installed)
  ∧ (∀ cfg outs s, (WindowHooks_install cfg outs s).2.hooks ≠ s.hooks →
       s.hooks_installed = false ∧ cfg.is_borderless_fullscreen_enabled = true)
  ∧ (∀ s, (WindowHooks_uninstall s).addon_instance_count
        = s.addon_instance_count - 1)
  ∧ (∀ s, (WindowHooks_uninstall s).hooks ≠ s.hooks →
       (WindowHooks_uninstall s).addon_instance_count = 0)
  ∧ (∀ ops, (runHookOps initialHookState ops).hooks_installed = true →
       1 ≤ (runHookOps initialHookState ops).addon_instance_count) := by
  refine ⟨?_, ?_, ?_, ?_, ?_, runHookOps_installed_count⟩
  · intro cfg outs s
    unfold WindowHooks_install
    dsimp only
    split
    · rfl
    · split
      · rfl
      · split <;> rfl
  · intro cfg outs s h
    unfold WindowHooks_install
    dsimp only
    by_cases h1 : s.hooks_installed = true
    · rw [if_pos h1]
      exact ⟨rfl, rfl, rfl⟩
    · rw [if_neg h1]
      have h2 : cfg.is_borderless_fullscreen_enabled = false := by
        rcases h with h | h
        · exact absurd h h1
        · exact h
      rw [if_pos h2]
      exact ⟨rfl, rfl, rfl⟩
  · intro cfg outs s h
    unfold WindowHooks_install at h
    dsimp only at h
    by_cases h1 : s.hooks_installed = true
    · rw [if_pos h1] at h
      exact absurd rfl h
    · rw [if_neg h1] at h
      by_cases h2 : cfg.is_borderless_fullscreen_enabled = false
      · rw [if_pos h2] at h
        exact absurd rfl h
      · exact ⟨by simpa using h1, by simpa using h2⟩
  · intro s
    unfold WindowHooks_uninstall
    dsimp only
    split
    · rfl
    · split <;> rfl
  · intro s h
    have hc : (WindowHooks_uninstall s).addon_instance_count
        = s.addon_instance_count - 1 := by
      unfold WindowHooks_uninstall
      dsimp only
      split
      · rfl
      · split <;> rfl
    unfold WindowHooks_uninstall at h
    dsimp only at h
    split at h
    · exact absurd rfl h
    · rename_i h1
      rw [hc]
      omega

/-- C9 witness: after one successful borderless `install()`, the hooks
are marked installed and the theorem's trace invariant yields a counter
of at least 1. -/
theorem C9_hook_registry_witness :
    (runHookOps initialHookState
        [HookOp.installOp ⟨3840, 2160, 1, FullscreenMode.Borderless, false, 0⟩
           [true, true, true, true, true, true, true, true, true]]).hooks_installed
      = true
  ∧ 1 ≤ (runHookOps initialHookState
        [HookOp.installOp ⟨3840, 2160, 1, FullscreenMode.Borderless, false, 0⟩
           [true, true, true, true, true, true, true, true, true]]).addon_instance_count :=
  ⟨by decide,
   C9_hook_registry_state_machine.2.2.2.2.2
     [HookOp.installOp ⟨3840, 2160, 1, FullscreenMode.Borderless, false, 0⟩
        [true, true, true, true, true, true, true, true, true]] (by decide)⟩

/-- An in-range `getD` is a member of the list. -/
theorem getD_mem_of_lt (l : List Nat) (j : Nat) (h : j < l.length) :
    l.getD j 0 ∈ l := by
  induction l generalizing j with
  | nil => simp at h
  | cons b rest ih =>
    cases j with
    | zero => exact List.mem_cons_self b rest
    | succ k => exact List.mem_cons_of_mem _ (ih k (by simpa using h))

/-- Membership gives an in-range `getD` position. -/
theorem mem_iff_getD (l : List Nat) (r : Nat) :
    r ∈ l ↔ ∃ j, j < l.length ∧ l.getD j 0 = r := by
  induction l with
  | nil => simp
  | cons b rest ih =>
    constructor
    · intro h
      rcases List.mem_cons.mp h with h | h
      · exact ⟨0, by simp, h.symm⟩
      · rcases ih.mp h with ⟨j, hj, hg⟩
        exact ⟨j + 1, by simpa using hj, hg⟩
    · rintro ⟨j, hj, hg⟩
      cases j with
      | zero => exact hg ▸ List.mem_cons_self b rest
      | succ k =>
        exact List.mem_cons_of_mem _ (ih.mpr ⟨k, by simpa using hj, hg⟩)

/-- `getD` through `map` at an in-range position. -/
theorem getD_map_lt (f : Nat → Nat) (l : List Nat) (i : Nat) (h : i < l.length) :
    (l.map f).getD i 0 = f (l.getD i 0) := by
  induction l generalizing i with
  | nil => simp at h
  | cons b rest ih =>
    cases i with
    | zero => rfl
    | succ k => exact ih k (by simpa using h)

/-- On a duplicate-free snapshot, `find_proxy_index` returns exactly the
position at which the resource handle sits. -/
theorem findHandleIdx_eq_of_nodup (bufs : List Nat) (hnodup : bufs.Nodup) :
    ∀ j, j < bufs.length → ∀ r, bufs.getD j 0 = r → findHandleIdx bufs r = some j := by
  induction bufs with
  | nil =>
    intro j hj
    simp at hj
  | cons b rest ih =>
    intro j hj r hg
    cases j with
    | zero =>
      simp only [List.getD_cons_zero] at hg
      simp [findHandleIdx, hg]
    | succ k =>
      have hk : k < rest.length := by simpa using hj
      have hg2 : rest.getD k 0 = r := hg
      have hrmem : r ∈ rest := hg2 ▸ getD_mem_of_lt rest k hk
      have hbr : b ≠ r := by
        intro hbr
        exact (List.nodup_cons.mp hnodup).1 (hbr ▸ hrmem)
      simp only [findHandleIdx, if_neg hbr]
      rw [ih (List.nodup_cons.mp hnodup).2 k hk r hg2]
      rfl

/-- `find_proxy_index` fails exactly on handles outside the snapshot. -/
theorem findHandleIdx_isSome_iff (bufs : List Nat) (r : Nat) :
    (findHandleIdx bufs r).isSome = true ↔ r ∈ bufs := by
  induction bufs with
  | nil => simp [findHandleIdx]
  | cons b rest ih =>
    by_cases hbr : b = r
    · simp [findHandleIdx, hbr]
    · simp only [findHandleIdx, if_neg hbr, List.mem_cons]
      have hmapSome : (Option.map (fun i => i + 1) (findHandleIdx rest r)).isSome
          = (findHandleIdx rest r).isSome := by
        cases findHandleIdx rest r <;> rfl
      rw [hmapSome, ih]
      constructor
      · exact Or.inr
      · intro h
        rcases h with h | h
        · exact absurd h.symm hbr
        · exact h

/-- The substitution branch is taken exactly for views resolving into the
snapshot, assuming nonzero snapshot handles and a null-to-null
`get_resource_from_view`. -/
theorem rtvSubstituted_true_iff (st : ManagerState) (dev : Nat)
    (resOfView : Nat → Nat) (data : SwapchainData)
    (hfind : find_active_data_for_device st dev = some data)
    (hnz : ∀ b ∈ data.actual_back_buffers, b ≠ 0)
    (hres0 : resOfView 0 = 0) (v : Nat) :
    rtvSubstituted st dev resOfView v = true ↔
      resOfView v ∈ data.actual_back_buffers := by
  unfold rtvSubstituted
  by_cases hv : v = 0
  · subst hv
    rw [if_pos rfl]
    constructor
    · intro h
      cases h
    · intro h
      rw [hres0] at h
      exact absurd rfl (hnz 0 h)
  · rw [if_neg hv]
    dsimp only
    by_cases hr : resOfView v = 0
    · rw [if_pos hr]
      constructor
      · intro h
        cases h
      · intro h
        exact absurd hr (hnz _ h)
    · rw [if_neg hr, hfind]
      exact findHandleIdx_isSome_iff _ _

/-- When the view's resource sits at position `j` of a duplicate-free
snapshot, the loop body substitutes the proxy RTV at position `j`. -/
theorem substituteRtv_eq_proxy (st : ManagerState) (dev : Nat)
    (resOfView : Nat → Nat) (data : SwapchainData)
    (hfind : find_active_data_for_device st dev = some data)
    (hnodup : data.actual_back_buffers.Nodup)
    (hnz : ∀ b ∈ data.actual_back_buffers, b ≠ 0)
    (hres0 : resOfView 0 = 0) (v j : Nat)
    (hj : j < data.actual_back_buffers.length)
    (hm : resOfView v = data.actual_back_buffers.getD j 0) :
    substituteRtv st dev resOfView v = data.proxy_rtvs.getD j 0 := by
  have hrnz : resOfView v ≠ 0 := by
    rw [hm]
    exact hnz _ (getD_mem_of_lt _ j hj)
  have hv : v ≠ 0 := by
    intro hv
    exact hrnz (hv ▸ hres0)
  unfold substituteRtv
  rw [if_neg hv]
  dsimp only
  rw [if_neg hrnz, hfind]
  dsimp only
  rw [findHandleIdx_eq_of_nodup _ hnodup j hj _ hm.symm]

/-- When the view is null or its resource matches no snapshot entry, the
loop body leaves it unchanged. -/
theorem substituteRtv_eq_self (st : ManagerState) (dev : Nat)
    (resOfView : Nat → Nat) (data : SwapchainData)
    (hfind : find_active_data_for_device st dev = some data) (v : Nat)
    (hm : resOfView v ∉ data.actual_back_buffers) :
    substituteRtv st dev resOfView v = v := by
  unfold substituteRtv
  by_cases hv : v = 0
  · rw [if_pos hv]
  · rw [if_neg hv]
    dsimp only
    by_cases hr : resOfView v = 0
    · rw [if_pos hr]
    · rw [if_neg hr, hfind]
      dsimp only
      have hnone : findHandleIdx data.actual_back_buffers (resOfView v) = none := by
        cases hfi : findHandleIdx data.actual_back_buffers (resOfView v) with
        | none => rfl
        | some j =>
          exact absurd ((findHandleIdx_isSome_iff _ _).mp (by rw [hfi]; rfl)) hm
      rw [hnone]

/-- C5: every bound render-target view whose underlying resource equals a
snapshotted real back-buffer handle of the device's active override
record is replaced, at the same array position, by the proxy RTV of the
same index; positions without a match keep their original view; the
depth-stencil view is never substituted; and the bind is reissued
(result `some`) exactly when at least one substitution occurred.
Hypotheses: the device resolves to an active record whose snapshot is
duplicate-free with nonzero handles (as produced by
`create_proxy_resources` from real back buffers), and a null view
resolves to the null resource. -/
theorem C5_render_target_substitution
    (st : ManagerState) (dev : Nat) (resOfView : Nat → Nat)
    (data : SwapchainData)
    (hfind : find_active_data_for_device st dev = some data)
    (hnodup : data.actual_back_buffers.Nodup)
    (hnz : ∀ b ∈ data.actual_back_buffers, b ≠ 0)
    (hres0 : resOfView 0 = 0)
    (rtvs : List Nat) (dsv : Nat) :
    (∀ i, i < rtvs.length → ∀ j, j < data.actual_back_buffers.length →
       resOfView (rtvs.getD i 0) = data.actual_back_buffers.getD j 0 →
       ∃ outl, handle_bind_render_targets st false (some dev) resOfView rtvs dsv
           = some (outl, dsv)
         ∧ outl.length = rtvs.length
         ∧ outl.getD i 0 = data.proxy_rtvs.getD j 0)
  ∧ (∀ i, i < rtvs.length →
       (∀ j, j < data.actual_back_buffers.length →
          resOfView (rtvs.getD i 0) ≠ data.actual_back_buffers.getD j 0) →
       ∀ outl d2, handle_bind_render_targets st false (some dev) resOfView rtvs dsv
           = some (outl, d2) → outl.getD i 0 = rtvs.getD i 0)
  ∧ (∀ outl d2, handle_bind_render_targets st false (some dev) resOfView rtvs dsv
        = some (outl, d2) → d2 = dsv)
  ∧ ((handle_bind_render_targets st false (some dev) resOfView rtvs dsv).isSome
        = true ↔
     ∃ i, i < rtvs.length ∧ ∃ j, j < data.actual_back_buffers.length ∧
       resOfView (rtvs.getD i 0) = data.actual_back_buffers.getD j 0) := by
  have hany : (rtvs.any (rtvSubstituted st dev resOfView) = true) ↔
      ∃ i, i < rtvs.length ∧ ∃ j, j < data.actual_back_buffers.length ∧
        resOfView (rtvs.getD i 0) = data.actual_back_buffers.getD j 0 := by
    rw [List.any_eq_true]
    constructor
    · rintro ⟨v, hv, hsub⟩
      have hmem := (rtvSubstituted_true_iff st dev resOfView data hfind hnz hres0 v).mp hsub
      rcases (mem_iff_getD rtvs v).mp hv with ⟨i, hi, hgi⟩
      rcases (mem_iff_getD data.actual_back_buffers (resOfView v)).mp hmem with ⟨j, hj, hgj⟩
      exact ⟨i, hi, j, hj, by rw [hgi, hgj]⟩
    · rintro ⟨i, hi, j, hj, hm⟩
      refine ⟨rtvs.getD i 0, getD_mem_of_lt _ i hi, ?_⟩
      rw [rtvSubstituted_true_iff st dev resOfView data hfind hnz hres0]
      rw [hm]
      exact getD_mem_of_lt _ j hj
  have hunfold : handle_bind_render_targets st false (some dev) resOfView rtvs dsv
      = if rtvs.isEmpty then none
        else if rtvs.any (rtvSubstituted st dev resOfView) then
          some (rtvs.map (substituteRtv st dev resOfView), dsv)
        else none := by
    unfold handle_bind_render_targets
    rw [if_neg (by simp : ¬ (false : Bool) = true)]
  by_cases he : rtvs.isEmpty = true
  · have hnil : rtvs = [] := List.isEmpty_iff.mp he
    subst hnil
    have hnone : handle_bind_render_targets st false (some dev) resOfView [] dsv
        = none := rfl
    refine ⟨?_, ?_, ?_, ?_⟩
    · intro i hi
      simp at hi
    · intro i hi
      simp at hi
    · intro outl d2 h
      rw [hnone] at h
      exact Option.noConfusion h
    · rw [hnone]
      constructor
      · intro h
        simp at h
      · rintro ⟨i, hi, _⟩
        simp at hi
  · rw [if_neg he] at hunfold
    refine ⟨?_, ?_, ?_, ?_⟩
    · intro i hi j hj hm
      have ha : rtvs.any (rtvSubstituted st dev resOfView) = true :=
        hany.mpr ⟨i, hi, j, hj, hm⟩
      rw [hunfold, if_pos ha]
      refine ⟨rtvs.map (substituteRtv st dev resOfView), rfl, by simp, ?_⟩
      rw [getD_map_lt _ _ i hi]
      exact substituteRtv_eq_proxy st dev resOfView data hfind hnodup hnz hres0 _ j hj hm
    · intro i hi hnom outl d2 hout
      rw [hunfold] at hout
      by_cases ha : rtvs.any (rtvSubstituted st dev resOfView) = true
      · rw [if_pos ha] at hout
        injection hout with hout
        have h1 : outl = rtvs.map (substituteRtv st dev resOfView) :=
          (congrArg Prod.fst hout).symm
        rw [h1, getD_map_lt _ _ i hi]
        refine substituteRtv_eq_self st dev resOfView data hfind _ ?_
        intro hmem
        rcases (mem_iff_getD _ _).mp hmem with ⟨j, hj, hgj⟩
        exact hnom j hj hgj.symm
      · rw [if_neg ha] at hout
        cases hout
    · intro outl d2 hout
      rw [hunfold] at hout
      by_cases ha : rtvs.any (rtvSubstituted st dev resOfView) = true
      · rw [if_pos ha] at hout
        injection hout with hout
        exact (congrArg Prod.snd hout).symm
      · rw [if_neg ha] at hout
        cases hout
    · rw [hunfold]
      by_cases ha : rtvs.any (rtvSubstituted st dev resOfView) = true
      · rw [if_pos ha]
        simpa using hany.mp ha
      · rw [if_neg ha]
        simp only [Option.isSome_none, Bool.false_eq_true, false_iff]
        intro hex
        exact ha (hany.mpr hex)

/-- A concrete active override record: two snapshotted back buffers 10
and 11 with proxy RTVs 21 and 22, owned by device 1. -/
def c5data : SwapchainData :=
  { emptySwapchainData with
    override_active := true
    device_id := some 1
    actual_back_buffers := [10, 11]
    proxy_rtvs := [21, 22]
    proxy_textures := [31, 32]
    proxy_srvs := [41, 42]
    original_width := 1920
    original_height := 1080
    actual_width := 3840
    actual_height := 2160 }

/-- A manager state tracking `c5data` under native handle 100. -/
def c5st : ManagerState := ⟨[(100, c5data)], []⟩

/-- A concrete `get_resource_from_view`: view 5 resolves to back buffer
10, every other view to the null resource. -/
def c5res : Nat → Nat := fun v => if v = 5 then 10 else 0

/-- C5 witness: binding views [5, 7] (view 5 over back buffer 10)
reissues the bind with the proxy RTV 21 in position 0 and depth-stencil 9
untouched. -/
theorem C5_render_target_witness :
    c5res ([5, 7].getD 0 0) = c5data.actual_back_buffers.getD 0 0
  ∧ ∃ outl, handle_bind_render_targets c5st false (some 1) c5res [5, 7] 9
      = some (outl, 9)
    ∧ outl.length = [5, 7].length
    ∧ outl.getD 0 0 = c5data.proxy_rtvs.getD 0 0 :=
  ⟨by decide,
   (C5_render_target_substitution c5st 1 c5res c5data (by decide) (by decide)
      (by decide) rfl [5, 7] 9).1 0 (by decide) 0 (by decide) (by decide)⟩

/-- The all-zero viewport, used as the `getD` default. -/
def zeroViewport : Viewport := ⟨0, 0, 0, 0, 0, 0⟩

/-- Polymorphic version of `getD` through `map` at an in-range position. -/
theorem getD_map_poly {α β : Type} (f : α → β) (l : List α) (i : Nat)
    (da : α) (db : β) (h : i < l.length) :
    (l.map f).getD i db = f (l.getD i da) := by
  induction l generalizing i with
  | nil => simp at h
  | cons b rest ih =>
    cases i with
    | zero => rfl
    | succ k => exact ih k (by simpa using h)

/-- C6: for an active override record with actual size 3840x2160,
`handle_bind_viewports` classifies a viewport as full-surface exactly
when its width is at least 3840*0.9 = 3456 and its height at least
2160*0.9 = 1944 (so width 3456 with passing height is classified, width
3455 is not, and symmetrically height 1943 is not); classified viewports
are rescaled coordinate-by-coordinate by the per-axis ratio
original_dimension / actual_dimension while the others are left
untouched; and the bind is reissued (result `some`, with the same
`first` index) exactly when at least one viewport was rescaled. -/
theorem C6_viewport_tolerance_boundary
    (cfg : Config) (st : ManagerState) (dev : Nat) (data : SwapchainData)
    (hovr : cfg.is_resolution_override_enabled = true)
    (hfind : find_active_data_for_device st dev = some data)
    (haw : data.actual_width = 3840) (hah : data.actual_height = 2160)
    (first : Nat) (vps : List Viewport) :
    ((data.actual_width : ℚ) = 3840 ∧ (data.actual_height : ℚ) = 2160)
  ∧ (∀ vp, viewportMatches data vp = true ↔
       ((3456 : ℚ) ≤ vp.width ∧ (1944 : ℚ) ≤ vp.height))
  ∧ (∀ vp, vp.width = (3456 : ℚ) → (1944 : ℚ) ≤ vp.height →
       viewportMatches data vp = true)
  ∧ (∀ vp, vp.width = (3455 : ℚ) → viewportMatches data vp = false)
  ∧ (∀ vp, vp.height = (1943 : ℚ) → viewportMatches data vp = false)
  ∧ (∀ f2 outl, handle_bind_viewports cfg st false (some dev) first vps
        = some (f2, outl) →
       f2 = first ∧ outl.length = vps.length ∧
       ∀ i, i < vps.length →
         outl.getD i zeroViewport =
           (if viewportMatches data (vps.getD i zeroViewport) then
              { x := (vps.getD i zeroViewport).x *
                       ((data.original_width : ℚ) / (data.actual_width : ℚ)),
                y := (vps.getD i zeroViewport).y *
                       ((data.original_height : ℚ) / (data.actual_height : ℚ)),
                width := (vps.getD i zeroViewport).width *
                       ((data.original_width : ℚ) / (data.actual_width : ℚ)),
                height := (vps.getD i zeroViewport).height *
                       ((data.original_height : ℚ) / (data.actual_height : ℚ)),
                min_depth := (vps.getD i zeroViewport).min_depth,
                max_depth := (vps.getD i zeroViewport).max_depth }
            else vps.getD i zeroViewport))
  ∧ ((handle_bind_viewports cfg st false (some dev) first vps).isSome = true ↔
       ∃ vp ∈ vps, viewportMatches data vp = true) := by
  have hcast : ((data.actual_width : ℚ) = 3840 ∧ (data.actual_height : ℚ) = 2160) := by
    rw [haw, hah]
    norm_num
  have hiff : ∀ vp, viewportMatches data vp = true ↔
      ((3456 : ℚ) ≤ vp.width ∧ (1944 : ℚ) ≤ vp.height) := by
    intro vp
    unfold viewportMatches
    rw [hcast.1, hcast.2]
    rw [Bool.and_eq_true, decide_eq_true_eq, decide_eq_true_eq]
    norm_num
  have hunfold : handle_bind_viewports cfg st false (some dev) first vps
      = if vps.isEmpty then none
        else if vps.any (viewportMatches data) then
          some (first, vps.map (fun vp =>
            if viewportMatches data vp then
              rescaleViewport
                ((data.original_width : ℚ) / (data.actual_width : ℚ))
                ((data.original_height : ℚ) / (data.actual_height : ℚ)) vp
            else vp))
        else none := by
    unfold handle_bind_viewports
    rw [if_neg (by simp : ¬ (false : Bool) = true),
        if_neg (by simp [hovr] : ¬ cfg.is_resolution_override_enabled = false)]
    dsimp only
    rw [hfind]
  refine ⟨hcast, hiff, ?_, ?_, ?_, ?_, ?_⟩
  · intro vp hw hh
    exact (hiff vp).mpr ⟨le_of_eq hw.symm, hh⟩
  · intro vp hw
    cases hmatch : viewportMatches data vp with
    | false => rfl
    | true =>
      have := ((hiff vp).mp hmatch).1
      rw [hw] at this
      norm_num at this
  · intro vp hh
    cases hmatch : viewportMatches data vp with
    | false => rfl
    | true =>
      have := ((hiff vp).mp hmatch).2
      rw [hh] at this
      norm_num at this
  · intro f2 outl hout
    rw [hunfold] at hout
    by_cases he : vps.isEmpty = true
    · rw [if_pos he] at hout
      exact Option.noConfusion hout
    · rw [if_neg he] at hout
      by_cases ha : vps.any (viewportMatches data) = true
      · rw [if_pos ha] at hout
        injection hout with hout
        have hf : f2 = first := (congrArg Prod.fst hout).symm
        have hl : outl = vps.map (fun vp =>
            if viewportMatches data vp then
              rescaleViewport
                ((data.original_width : ℚ) / (data.actual_width : ℚ))
                ((data.original_height : ℚ) / (data.actual_height : ℚ)) vp
            else vp) := (congrArg Prod.snd hout).symm
        refine ⟨hf, by rw [hl]; simp, ?_⟩
        intro i hi
        rw [hl, getD_map_poly _ _ i zeroViewport zeroViewport hi]
        by_cases hm : viewportMatches data (vps.getD i zeroViewport) = true
        · rw [if_pos hm, if_pos hm]
          rfl
        · rw [if_neg hm, if_neg hm]
      · rw [if_neg ha] at hout
        exact Option.noConfusion hout
  · rw [hunfold]
    by_cases he : vps.isEmpty = true
    · have hnil : vps = [] := List.isEmpty_iff.mp he
      subst hnil
      simp
    · rw [if_neg he]
      by_cases ha : vps.any (viewportMatches data) = true
      · rw [if_pos ha]
        simpa using List.any_eq_true.mp ha
      · rw [if_neg ha]
        simp only [Option.isSome_none, Bool.false_eq_true, false_iff]
        intro hex
        exact ha (List.any_eq_true.mpr hex)

/-- C6 witness: against the 3840x2160 record `c5data`, a 3456-wide
viewport with passing height is classified full-surface, a 3455-wide one
is not, and a 1943-high one is not. -/
theorem C6_viewport_witness :
    viewportMatches c5data ⟨0, 0, 3456, 2160, 0, 1⟩ = true
  ∧ viewportMatches c5data ⟨0, 0, 3455, 2160, 0, 1⟩ = false
  ∧ viewportMatches c5data ⟨0, 0, 3840, 1943, 0, 1⟩ = false :=
  ⟨(C6_viewport_tolerance_boundary ⟨3840, 2160, 1, FullscreenMode.Unchanged, false, 0⟩
      c5st 1 c5data (by decide) (by decide) rfl rfl 0 []).2.2.1
      ⟨0, 0, 3456, 2160, 0, 1⟩ rfl (by norm_num),
   (C6_viewport_tolerance_boundary ⟨3840, 2160, 1, FullscreenMode.Unchanged, false, 0⟩
      c5st 1 c5data (by decide) (by decide) rfl rfl 0 []).2.2.2.1
      ⟨0, 0, 3455, 2160, 0, 1⟩ rfl,
   (C6_viewport_tolerance_boundary ⟨3840, 2160, 1, FullscreenMode.Unchanged, false, 0⟩
      c5st 1 c5data (by decide) (by decide) rfl rfl 0 []).2.2.2.2.1
      ⟨0, 0, 3840, 1943, 0, 1⟩ rfl⟩

/-- A failing creation call only advances the call counter. -/
theorem createObj_eq_fail (failAt : Nat → Bool) (k : GpuObjKind) (g : GpuState)
    (hf : failAt g.callIdx = true) :
    createObj failAt k g = (none, { g with callIdx := g.callIdx + 1 }) := by
  unfold createObj
  rw [if_pos hf]

/-- A successful creation call returns the next fresh handle and records
the object. -/
theorem createObj_eq_succ (failAt : Nat → Bool) (k : GpuObjKind) (g : GpuState)
    (hf : failAt g.callIdx = false) :
    createObj failAt k g =
      (some (g.nextHandle + 1),
       { nextHandle := g.nextHandle + 1, callIdx := g.callIdx + 1,
         live := g.live ++ [⟨g.nextHandle + 1, k⟩],
         created := g.created ++ [⟨g.nextHandle + 1, k⟩] }) := by
  unfold createObj
  rw [if_neg (by rw [hf]; exact Bool.false_ne_true)]

/-- With a never-failing oracle, the texture+RTV loop succeeds. -/
theorem proxyTexLoop_noFail (failAt : Nat → Bool) (hnf : ∀ m, failAt m = false)
    (ow oh : Nat) : ∀ k g, (proxyTexLoop failAt ow oh k g).1 = true := by
  intro k
  induction k with
  | zero =>
    intro g
    rfl
  | succ n ih =>
    intro g
    unfold proxyTexLoop
    rw [createObj_eq_succ failAt _ g (hnf _)]
    dsimp only
    rw [createObj_eq_succ failAt _ _ (hnf _)]
    dsimp only
    exact ih _

/-- With a never-failing oracle, the SRV loop succeeds. -/
theorem proxySrvLoop_noFail (failAt : Nat → Bool) (hnf : ∀ m, failAt m = false) :
    ∀ k g, (proxySrvLoop failAt k g).1 = true := by
  intro k
  induction k with
  | zero =>
    intro g
    rfl
  | succ n ih =>
    intro g
    unfold proxySrvLoop
    rw [createObj_eq_succ failAt _ g (hnf _)]
    dsimp only
    exact ih _

/-- A successful texture+RTV loop returns one texture and one RTV per
iteration. -/
theorem proxyTexLoop_length (failAt : Nat → Bool) (ow oh : Nat) :
    ∀ k g, (proxyTexLoop failAt ow oh k g).1 = true →
      (proxyTexLoop failAt ow oh k g).2.1.length = k ∧
      (proxyTexLoop failAt ow oh k g).2.2.1.length = k := by
  intro k
  induction k with
  | zero =>
    intro g _
    exact ⟨rfl, rfl⟩
  | succ n ih =>
    intro g h
    unfold proxyTexLoop at h ⊢
    by_cases h1 : failAt g.callIdx = true
    · rw [createObj_eq_fail failAt _ g h1] at h
      exact absurd h (by simp)
    · rw [createObj_eq_succ failAt _ g (Bool.eq_false_iff.mpr h1)] at h ⊢
      dsimp only at h ⊢
      by_cases h2 : failAt (g.callIdx + 1) = true
      · rw [createObj_eq_fail failAt _ _ (by simpa using h2)] at h
        exact absurd h (by simp)
      · rw [createObj_eq_succ failAt _ _ (by simpa using (Bool.eq_false_iff.mpr h2))] at h ⊢
        dsimp only at h ⊢
        rcases ih _ h with ⟨hl1, hl2⟩
        exact ⟨by simp only [List.length_cons, hl1], by simp only [List.length_cons, hl2]⟩

/-- A successful SRV loop returns one SRV per iteration. -/
theorem proxySrvLoop_length (failAt : Nat → Bool) :
    ∀ k g, (proxySrvLoop failAt k g).1 = true →
      (proxySrvLoop failAt k g).2.1.length = k := by
  intro k
  induction k with
  | zero =>
    intro g _
    rfl
  | succ n ih =>
    intro g h
    unfold proxySrvLoop at h ⊢
    by_cases h1 : failAt g.callIdx = true
    · rw [createObj_eq_fail failAt _ g h1] at h
      exact absurd h (by simp)
    · rw [createObj_eq_succ failAt _ g (Bool.eq_false_iff.mpr h1)] at h ⊢
      dsimp only at h ⊢
      exact by simp [ih _ h]

/-- Every object created across the texture+RTV loop is either inherited
or a texture of the requested proxy size or an RTV. -/
theorem proxyTexLoop_created (failAt : Nat → Bool) (ow oh : Nat) :
    ∀ k g o, o ∈ (proxyTexLoop failAt ow oh k g).2.2.2.created →
      o ∈ g.created ∨ o.kind = GpuObjKind.tex ow oh ∨ o.kind = GpuObjKind.rtv := by
  intro k
  induction k with
  | zero =>
    intro g o h
    exact Or.inl h
  | succ n ih =>
    intro g o h
    unfold proxyTexLoop at h
    by_cases h1 : failAt g.callIdx = true
    · rw [createObj_eq_fail failAt _ g h1] at h
      exact Or.inl h
    · rw [createObj_eq_succ failAt _ g (Bool.eq_false_iff.mpr h1)] at h
      dsimp only at h
      by_cases h2 : failAt (g.callIdx + 1) = true
      · rw [createObj_eq_fail failAt _ _ (by simpa using h2)] at h
        dsimp only at h
        rcases List.mem_append.mp h with h | h
        · exact Or.inl h
        · simp at h
          exact Or.inr (Or.inl (by rw [h]))
      · rw [createObj_eq_succ failAt _ _ (by simpa using (Bool.eq_false_iff.mpr h2))] at h
        dsimp only at h
        rcases ih _ o h with h | h | h
        · rcases List.mem_append.mp h with h | h
          · rcases List.mem_append.mp h with h | h
            · exact Or.inl h
            · simp at h
              exact Or.inr (Or.inl (by rw [h]))
          · simp at h
            exact Or.inr (Or.inr (by rw [h]))
        · exact Or.inr (Or.inl h)
        · exact Or.inr (Or.inr h)

/-- Every object created across the SRV loop is either inherited or an
SRV. -/
theorem proxySrvLoop_created (failAt : Nat → Bool) :
    ∀ k g o, o ∈ (proxySrvLoop failAt k g).2.2.created →
      o ∈ g.created ∨ o.kind = GpuObjKind.srv := by
  intro k
  induction k with
  | zero =>
    intro g o h
    exact Or.inl h
  | succ n ih =>
    intro g o h
    unfold proxySrvLoop at h
    by_cases h1 : failAt g.callIdx = true
    · rw [createObj_eq_fail failAt _ g h1] at h
      exact Or.inl h
    · rw [createObj_eq_succ failAt _ g (Bool.eq_false_iff.mpr h1)] at h
      dsimp only at h
      rcases ih _ o h with h | h
      · rcases List.mem_append.mp h with h | h
        · exact Or.inl h
        · simp at h
          exact Or.inr (by rw [h])
      · exact Or.inr h

/-- Every object created across the pipeline build is either inherited or
a pipeline layout, pipeline or sampler. -/
theorem create_copy_pipeline_created (failAt : Nat → Bool) (d : SwapchainData)
    (g : GpuState) (o : GpuObject)
    (h : o ∈ (create_copy_pipeline failAt d g).2.2.created) :
    o ∈ g.created ∨ o.kind = GpuObjKind.pipelineLayout
      ∨ o.kind = GpuObjKind.pipelineObj ∨ o.kind = GpuObjKind.samplerObj := by
  unfold create_copy_pipeline at h
  by_cases h1 : failAt g.callIdx = true
  · rw [createObj_eq_fail failAt _ g h1] at h
    exact Or.inl h
  · rw [createObj_eq_succ failAt _ g (Bool.eq_false_iff.mpr h1)] at h
    dsimp only at h
    by_cases h2 : failAt (g.callIdx + 1) = true
    · rw [createObj_eq_fail failAt _ _ (by simpa using h2)] at h
      dsimp only at h
      rcases List.mem_append.mp h with h | h
      · exact Or.inl h
      · simp at h
        exact Or.inr (Or.inl (by rw [h]))
    · rw [createObj_eq_succ failAt _ _ (by simpa using (Bool.eq_false_iff.mpr h2))] at h
      dsimp only at h
      by_cases h3 : failAt (g.callIdx + 1 + 1) = true
      · rw [createObj_eq_fail failAt _ _ (by simpa using h3)] at h
        dsimp only at h
        rcases List.mem_append.mp h with h | h
        · rcases List.mem_append.mp h with h | h
          · exact Or.inl h
          · simp at h
            exact Or.inr (Or.inl (by rw [h]))
        · simp at h
          exact Or.inr (Or.inr (Or.inl (by rw [h])))
      · rw [createObj_eq_succ failAt _ _ (by simpa using (Bool.eq_false_iff.mpr h3))] at h
        dsimp only at h
        rcases List.mem_append.mp h with h | h
        · rcases List.mem_append.mp h with h | h
          · rcases List.mem_append.mp h with h | h
            · exact Or.inl h
            · simp at h
              exact Or.inr (Or.inl (by rw [h]))
          · simp at h
            exact Or.inr (Or.inr (Or.inl (by rw [h])))
        · simp at h
          exact Or.inr (Or.inr (Or.inr (by rw [h])))

/-- With a never-failing oracle, the pipeline build succeeds. -/
theorem create_copy_pipeline_noFail (failAt : Nat → Bool)
    (hnf : ∀ m, failAt m = false) (d : SwapchainData) (g : GpuState) :
    (create_copy_pipeline failAt d g).1 = true := by
  unfold create_copy_pipeline
  rw [createObj_eq_succ failAt _ g (hnf _)]
  dsimp only
  rw [createObj_eq_succ failAt _ _ (hnf _)]
  dsimp only
  rw [createObj_eq_succ failAt _ _ (hnf _)]

/-- The pipeline build only writes the three pipeline fields of the
record. -/
theorem create_copy_pipeline_fields (failAt : Nat → Bool) (d : SwapchainData)
    (g : GpuState) :
    ∃ a b c, (create_copy_pipeline failAt d g).2.1 =
      { d with copy_pipeline_layout := a, copy_pipeline := b, copy_sampler := c } := by
  unfold create_copy_pipeline
  by_cases h1 : failAt g.callIdx = true
  · rw [createObj_eq_fail failAt _ g h1]
    exact ⟨d.copy_pipeline_layout, d.copy_pipeline, d.copy_sampler, rfl⟩
  · rw [createObj_eq_succ failAt _ g (Bool.eq_false_iff.mpr h1)]
    dsimp only
    by_cases h2 : failAt (g.callIdx + 1) = true
    · rw [createObj_eq_fail failAt _ _ (by simpa using h2)]
      exact ⟨g.nextHandle + 1, d.copy_pipeline, d.copy_sampler, rfl⟩
    · rw [createObj_eq_succ failAt _ _ (by simpa using (Bool.eq_false_iff.mpr h2))]
      dsimp only
      by_cases h3 : failAt (g.callIdx + 1 + 1) = true
      · rw [createObj_eq_fail failAt _ _ (by simpa using h3)]
        exact ⟨g.nextHandle + 1, g.nextHandle + 1 + 1, d.copy_sampler, rfl⟩
      · rw [createObj_eq_succ failAt _ _ (by simpa using (Bool.eq_false_iff.mpr h3))]
        exact ⟨g.nextHandle + 1, g.nextHandle + 1 + 1, g.nextHandle + 1 + 1 + 1, rfl⟩

/-- Lookup after insert-or-assign at the same key. -/
theorem getEntry_setEntry_self {α : Type} :
    ∀ (l : List (Nat × α)) (k : Nat) (v : α), getEntry (setEntry l k v) k = some v
  | [], k, v => by
    simp [setEntry, getEntry]
  | (k1, v1) :: rest, k, v => by
    by_cases hk : k1 = k
    · simp [setEntry, hk, getEntry]
    · simp only [setEntry, if_neg hk, getEntry]
      exact getEntry_setEntry_self rest k v

/-- Lookup after insert-or-assign at a different key. -/
theorem getEntry_setEntry_ne {α : Type} :
    ∀ (l : List (Nat × α)) (k : Nat) (v : α) (k2 : Nat), k ≠ k2 →
      getEntry (setEntry l k v) k2 = getEntry l k2
  | [], k, v, k2, h => by
    simp [setEntry, getEntry, h]
  | (k1, v1) :: rest, k, v, k2, h => by
    by_cases hk : k1 = k
    · simp only [setEntry, if_pos hk, getEntry]
      rw [if_neg h, if_neg (by rw [hk]; exact h)]
    · simp only [setEntry, if_neg hk, getEntry]
      by_cases hk2 : k1 = k2
      · rw [if_pos hk2, if_pos hk2]
      · rw [if_neg hk2, if_neg hk2]
        exact getEntry_setEntry_ne rest k v k2 h

/-- Lookup misses when the key is absent. -/
theorem getEntry_eq_none_of_not_mem {α : Type} :
    ∀ (l : List (Nat × α)) (k : Nat), k ∉ l.map Prod.fst → getEntry l k = none
  | [], k, _ => rfl
  | (k1, v1) :: rest, k, h => by
    have h1 : k1 ≠ k := by
      intro hk
      exact h (by simp [hk])
    simp only [getEntry, if_neg h1]
    exact getEntry_eq_none_of_not_mem rest k (fun hm => h (by simp; right; simpa using hm))

/-- On a duplicate-free table, erasing a key makes its lookup miss. -/
theorem getEntry_eraseEntry_self {α : Type} :
    ∀ (l : List (Nat × α)) (k : Nat), (l.map Prod.fst).Nodup →
      getEntry (eraseEntry l k) k = none
  | [], k, _ => rfl
  | (k1, v1) :: rest, k, h => by
    rw [List.map_cons] at h
    rcases List.nodup_cons.mp h with ⟨hnotin, hrest⟩
    by_cases hk : k1 = k
    · simp only [eraseEntry, if_pos hk]
      exact getEntry_eq_none_of_not_mem rest k (by rw [← hk]; exact hnotin)
    · simp only [eraseEntry, if_neg hk, getEntry]
      exact getEntry_eraseEntry_self rest k hrest

/-- Keys present after insert-or-assign. -/
theorem mem_keys_setEntry {α : Type} :
    ∀ (l : List (Nat × α)) (k : Nat) (v : α) (k2 : Nat),
      k2 ∈ (setEntry l k v).map Prod.fst ↔ k2 = k ∨ k2 ∈ l.map Prod.fst
  | [], k, v, k2 => by
    simp [setEntry]
  | (k1, v1) :: rest, k, v, k2 => by
    by_cases hk : k1 = k
    · subst hk
      simp only [setEntry, if_pos rfl]
      simp [or_assoc]
    · simp only [setEntry, if_neg hk, List.map_cons, List.mem_cons]
      rw [mem_keys_setEntry rest k v k2]
      constructor
      · rintro (h | h | h)
        · exact Or.inr (Or.inl h)
        · exact Or.inl h
        · exact Or.inr (Or.inr h)
      · rintro (h | h | h)
        · exact Or.inr (Or.inl h)
        · exact Or.inl h
        · exact Or.inr (Or.inr h)

/-- Insert-or-assign preserves duplicate-freedom of the key list. -/
theorem setEntry_keys_nodup {α : Type} :
    ∀ (l : List (Nat × α)) (k : Nat) (v : α), (l.map Prod.fst).Nodup →
      ((setEntry l k v).map Prod.fst).Nodup
  | [], k, v, _ => by
    simp [setEntry]
  | (k1, v1) :: rest, k, v, h => by
    rw [List.map_cons] at h
    rcases List.nodup_cons.mp h with ⟨hnotin, hrest⟩
    by_cases hk : k1 = k
    · subst hk
      simp only [setEntry, if_pos rfl, List.map_cons]
      exact List.nodup_cons.mpr ⟨hnotin, hrest⟩
    · simp only [setEntry, if_neg hk, List.map_cons]
      refine List.nodup_cons.mpr ⟨?_, setEntry_keys_nodup rest k v hrest⟩
      intro hmem
      rcases (mem_keys_setEntry rest k v k1).mp hmem with h1 | h1
      · exact hk h1
      · exact hnotin h1

/-- Read-and-erase of a present pending entry. -/
theorem retrieve_pending_eq_some (st : ManagerState) (hwnd : Nat)
    (info : PendingSwapchainInfo)
    (h : getEntry st.pending_swapchains hwnd = some info) :
    retrieve_pending_info st hwnd =
      (some info,
       { st with pending_swapchains := eraseEntry st.pending_swapchains hwnd }) := by
  unfold retrieve_pending_info
  rw [h]

/-- With a never-failing oracle, proxy-resource creation succeeds. -/
theorem create_proxy_resources_noFail (failAt : Nat → Bool)
    (hnf : ∀ m, failAt m = false) (d : SwapchainData) (sc : SwapchainModel)
    (g : GpuState) : (create_proxy_resources failAt d sc g).1 = true := by
  unfold create_proxy_resources
  dsimp only
  rw [if_neg (by simp [proxyTexLoop_noFail failAt hnf])]
  rw [if_neg (by simp [proxySrvLoop_noFail failAt hnf])]

/-- On success, every proxy vector and the snapshot have exactly one
entry per back buffer. -/
theorem create_proxy_resources_lengths (failAt : Nat → Bool) (d : SwapchainData)
    (sc : SwapchainModel) (g : GpuState)
    (hs : (create_proxy_resources failAt d sc g).1 = true) :
    (create_proxy_resources failAt d sc g).2.1.proxy_textures.length
        = sc.back_buffer_count
  ∧ (create_proxy_resources failAt d sc g).2.1.proxy_rtvs.length
        = sc.back_buffer_count
  ∧ (create_proxy_resources failAt d sc g).2.1.proxy_srvs.length
        = sc.back_buffer_count
  ∧ (create_proxy_resources failAt d sc g).2.1.actual_back_buffers.length
        = sc.back_buffer_count := by
  unfold create_proxy_resources at hs ⊢
  dsimp only at hs ⊢
  by_cases h1 : (proxyTexLoop failAt d.original_width d.original_height
      sc.back_buffer_count g).1 = false
  · rw [if_pos h1] at hs
    exact absurd hs (by simp)
  · rw [if_neg h1] at hs ⊢
    by_cases h2 : (proxySrvLoop failAt sc.back_buffer_count
        (proxyTexLoop failAt d.original_width d.original_height
          sc.back_buffer_count g).2.2.2).1 = false
    · rw [if_pos h2] at hs
      exact absurd hs (by simp)
    · rw [if_neg h2] at hs ⊢
      have h1t : (proxyTexLoop failAt d.original_width d.original_height
          sc.back_buffer_count g).1 = true := by
        cases hb : (proxyTexLoop failAt d.original_width d.original_height
            sc.back_buffer_count g).1 with
        | true => rfl
        | false => exact absurd hb h1
      have h2t : (proxySrvLoop failAt sc.back_buffer_count
          (proxyTexLoop failAt d.original_width d.original_height
            sc.back_buffer_count g).2.2.2).1 = true := by
        cases hb : (proxySrvLoop failAt sc.back_buffer_count
            (proxyTexLoop failAt d.original_width d.original_height
              sc.back_buffer_count g).2.2.2).1 with
        | true => rfl
        | false => exact absurd hb h2
      rcases proxyTexLoop_length failAt d.original_width d.original_height
        sc.back_buffer_count g h1t with ⟨hl1, hl2⟩
      have hl3 := proxySrvLoop_length failAt sc.back_buffer_count
        (proxyTexLoop failAt d.original_width d.original_height
          sc.back_buffer_count g).2.2.2 h2t
      refine ⟨?_, ?_, ?_, ?_⟩
      · simp only [List.length_append, List.length_replicate, hl1]
        omega
      · simp only [List.length_append, List.length_replicate, hl2]
        omega
      · simp only [List.length_append, List.length_replicate, hl3]
        omega
      · simp

/-- Proxy-resource creation only writes the four vector fields of the
record. -/
theorem create_proxy_resources_fields (failAt : Nat → Bool) (d : SwapchainData)
    (sc : SwapchainModel) (g : GpuState) :
    ∃ t r s a, (create_proxy_resources failAt d sc g).2.1 =
      { d with proxy_textures := t, proxy_rtvs := r, proxy_srvs := s,
               actual_back_buffers := a } := by
  unfold create_proxy_resources
  dsimp only
  by_cases h1 : (proxyTexLoop failAt d.original_width d.original_height
      sc.back_buffer_count g).1 = false
  · rw [if_pos h1]
    exact ⟨_, _, d.proxy_srvs, _, rfl⟩
  · rw [if_neg h1]
    by_cases h2 : (proxySrvLoop failAt sc.back_buffer_count
        (proxyTexLoop failAt d.original_width d.original_height
          sc.back_buffer_count g).2.2.2).1 = false
    · rw [if_pos h2]
      exact ⟨_, _, _, _, rfl⟩
    · rw [if_neg h2]
      exact ⟨_, _, _, _, rfl⟩

/-- Every object created across proxy-resource creation is either
inherited or a proxy texture (sized at the record's original
resolution), an RTV or an SRV. -/
theorem create_proxy_resources_created (failAt : Nat → Bool) (d : SwapchainData)
    (sc : SwapchainModel) (g : GpuState) (o : GpuObject)
    (h : o ∈ (create_proxy_resources failAt d sc g).2.2.created) :
    o ∈ g.created ∨ o.kind = GpuObjKind.tex d.original_width d.original_height
      ∨ o.kind = GpuObjKind.rtv ∨ o.kind = GpuObjKind.srv := by
  unfold create_proxy_resources at h
  dsimp only at h
  by_cases h1 : (proxyTexLoop failAt d.original_width d.original_height
      sc.back_buffer_count g).1 = false
  · rw [if_pos h1] at h
    rcases proxyTexLoop_created failAt d.original_width d.original_height
      sc.back_buffer_count g o h with h | h | h
    · exact Or.inl h
    · exact Or.inr (Or.inl h)
    · exact Or.inr (Or.inr (Or.inl h))
  · rw [if_neg h1] at h
    have hsrv : o ∈ (proxySrvLoop failAt sc.back_buffer_count
        (proxyTexLoop failAt d.original_width d.original_height
          sc.back_buffer_count g).2.2.2).2.2.created := by
      by_cases h2 : (proxySrvLoop failAt sc.back_buffer_count
          (proxyTexLoop failAt d.original_width d.original_height
            sc.back_buffer_count g).2.2.2).1 = false
      · rw [if_pos h2] at h
        exact h
      · rw [if_neg h2] at h
        exact h
    rcases proxySrvLoop_created failAt sc.back_buffer_count _ o hsrv with h3 | h3
    · rcases proxyTexLoop_created failAt d.original_width d.original_height
        sc.back_buffer_count g o h3 with h4 | h4 | h4
      · exact Or.inl h4
      · exact Or.inr (Or.inl h4)
      · exact Or.inr (Or.inr (Or.inl h4))
    · exact Or.inr (Or.inr (Or.inr h3))

/-- The record contents assigned by `initialize_swapchain` before any
resource creation: device pointer, actual size from the real back buffer,
`override_active = true`, and the original size consumed from the pending
table. -/
def initRecord (sc : SwapchainModel) (dev ow oh : Nat) : SwapchainData :=
  { emptySwapchainData with
    device_id := some dev
    actual_width := sc.bb_width
    actual_height := sc.bb_height
    override_active := true
    original_width := ow
    original_height := oh }

/-- Full characterization of a fresh, fully successful
`initialize_swapchain` run: it consumes the pending entry and stores the
pipeline-completed record under the native handle. -/
theorem initialize_swapchain_noFail_run (failAt : Nat → Bool)
    (hnf : ∀ m, failAt m = false) (sc : SwapchainModel) (st : ManagerState)
    (g : GpuState) (dev : Nat) (hdev : sc.device_id = some dev)
    (hbc : ¬ sc.back_buffer_count = 0)
    (hnew : getEntry st.swapchain_data sc.native_handle = none)
    (ow oh : Nat)
    (hpend : getEntry st.pending_swapchains sc.hwnd
      = some ⟨ow, oh⟩) :
    initialize_swapchain failAt false sc st g
      = (true,
         { swapchain_data := setEntry st.swapchain_data sc.native_handle
             (create_copy_pipeline failAt
               (create_proxy_resources failAt (initRecord sc dev ow oh) sc g).2.1
               (create_proxy_resources failAt (initRecord sc dev ow oh) sc g).2.2).2.1,
           pending_swapchains := eraseEntry st.pending_swapchains sc.hwnd },
         (create_copy_pipeline failAt
           (create_proxy_resources failAt (initRecord sc dev ow oh) sc g).2.1
           (create_proxy_resources failAt (initRecord sc dev ow oh) sc g).2.2).2.2) := by
  unfold initialize_swapchain
  rw [if_neg (by simp : ¬ (false : Bool) = true), hdev]
  try dsimp only
  rw [if_neg hbc, hnew]
  try dsimp only
  rw [retrieve_pending_eq_some st sc.hwnd ⟨ow, oh⟩ hpend]
  try dsimp only
  unfold initialize_swapchain_build
  try dsimp only
  rw [if_neg (by simp [create_proxy_resources_noFail failAt hnf])]
  try dsimp only
  rw [if_neg (by simp [create_copy_pipeline_noFail failAt hnf])]
  try rfl

/-- The resolution-override branch of `handle_create_swapchain`: when the
override is enabled, the requested size differs from the forced one and a
window handle is present, the handler reports the description modified,
rewrites the size to the forced one, and stores the requested size in the
pending table — whatever the configured fullscreen mode does to the
remaining description fields. -/
theorem handle_create_override_spec (cfg : Config) (desc : SwapchainDesc)
    (hwnd : Nat) (st : ManagerState)
    (hen : cfg.is_resolution_override_enabled = true)
    (hne : desc.back_buffer_width ≠ cfg.force_width ∨
           desc.back_buffer_height ≠ cfg.force_height)
    (hhw : hwnd ≠ 0) :
    (handle_create_swapchain cfg desc hwnd st).1 = true
  ∧ (handle_create_swapchain cfg desc hwnd st).2.1.back_buffer_width
      = cfg.force_width
  ∧ (handle_create_swapchain cfg desc hwnd st).2.1.back_buffer_height
      = cfg.force_height
  ∧ (handle_create_swapchain cfg desc hwnd st).2.2
      = store_pending_info st hwnd desc.back_buffer_width desc.back_buffer_height := by
  have hcond : cfg.is_resolution_override_enabled = true ∧
      (desc.back_buffer_width ≠ cfg.force_width ∨
       desc.back_buffer_height ≠ cfg.force_height) := ⟨hen, hne⟩
  unfold handle_create_swapchain
  rw [if_pos hcond, if_pos hhw]
  dsimp only
  cases hm : cfg.fullscreen_mode
  case Unchanged =>
    have he : cfg.is_exclusive_fullscreen_enabled = false := by
      unfold Config.is_exclusive_fullscreen_enabled
      rw [hm]
    have hb : cfg.is_borderless_fullscreen_enabled = false := by
      unfold Config.is_borderless_fullscreen_enabled
      rw [hm]
    rw [if_neg (by rw [he]; exact Bool.false_ne_true),
        if_neg (by rw [hb]; exact Bool.false_ne_true)]
    exact ⟨rfl, rfl, rfl, rfl⟩
  case Borderless =>
    have he : cfg.is_exclusive_fullscreen_enabled = false := by
      unfold Config.is_exclusive_fullscreen_enabled
      rw [hm]
    have hb : cfg.is_borderless_fullscreen_enabled = true := by
      unfold Config.is_borderless_fullscreen_enabled
      rw [hm]
    rw [if_neg (by rw [he]; exact Bool.false_ne_true), if_pos hb]
    try dsimp only
    by_cases hfs : desc.fullscreen_state = true
    · rw [if_pos hfs]
      try dsimp only
      split
      · exact ⟨rfl, rfl, rfl, rfl⟩
      · exact ⟨rfl, rfl, rfl, rfl⟩
    · rw [if_neg hfs]
      try dsimp only
      split
      · exact ⟨rfl, rfl, rfl, rfl⟩
      · exact ⟨rfl, rfl, rfl, rfl⟩
  case Exclusive =>
    have he : cfg.is_exclusive_fullscreen_enabled = true := by
      unfold Config.is_exclusive_fullscreen_enabled
      rw [hm]
    rw [if_pos he]
    split
    · exact ⟨rfl, rfl, rfl, rfl⟩
    · exact ⟨rfl, rfl, rfl, rfl⟩

/-- C1: with resolution override enabled and forced size 3840x2160, a
create request of 1920x1080 on a non-null window handle is rewritten to
3840x2160 with `true` returned and a pending record {1920, 1080} stored
under the window handle; the subsequent `initialize_swapchain` for the
same window, with every GPU creation succeeding, consumes and erases
exactly that pending record, stores an override-active record with
original size 1920x1080 and one proxy texture per back buffer, and every
proxy texture it creates has width 1920 and height 1080. -/
theorem C1_resolution_override_round_trip
    (sfilt tmon : Nat) (mode : FullscreenMode) (block : Bool)
    (fs : Bool) (pf : Nat) (hwnd : Nat) (hhw : hwnd ≠ 0)
    (st : ManagerState)
    (hnodup : (st.pending_swapchains.map Prod.fst).Nodup)
    (dev n : Nat) (hn : n ≠ 0) (bb : Nat → Nat) (aw ah fmt native : Nat)
    (hnew : getEntry st.swapchain_data native = none)
    (g : GpuState) (hg : g.created = []) :
    (handle_create_swapchain ⟨3840, 2160, sfilt, mode, block, tmon⟩
        ⟨1920, 1080, fs, pf⟩ hwnd st).1 = true
  ∧ (handle_create_swapchain ⟨3840, 2160, sfilt, mode, block, tmon⟩
        ⟨1920, 1080, fs, pf⟩ hwnd st).2.1.back_buffer_width = 3840
  ∧ (handle_create_swapchain ⟨3840, 2160, sfilt, mode, block, tmon⟩
        ⟨1920, 1080, fs, pf⟩ hwnd st).2.1.back_buffer_height = 2160
  ∧ getEntry (handle_create_swapchain ⟨3840, 2160, sfilt, mode, block, tmon⟩
        ⟨1920, 1080, fs, pf⟩ hwnd st).2.2.pending_swapchains hwnd
      = some ⟨1920, 1080⟩
  ∧ (initialize_swapchain (fun _ => false) false
        ⟨some dev, n, bb, aw, ah, fmt, native, hwnd⟩
        (handle_create_swapchain ⟨3840, 2160, sfilt, mode, block, tmon⟩
          ⟨1920, 1080, fs, pf⟩ hwnd st).2.2 g).1 = true
  ∧ getEntry (initialize_swapchain (fun _ => false) false
        ⟨some dev, n, bb, aw, ah, fmt, native, hwnd⟩
        (handle_create_swapchain ⟨3840, 2160, sfilt, mode, block, tmon⟩
          ⟨1920, 1080, fs, pf⟩ hwnd st).2.2 g).2.1.pending_swapchains hwnd
      = none
  ∧ (∃ d, getEntry (initialize_swapchain (fun _ => false) false
        ⟨some dev, n, bb, aw, ah, fmt, native, hwnd⟩
        (handle_create_swapchain ⟨3840, 2160, sfilt, mode, block, tmon⟩
          ⟨1920, 1080, fs, pf⟩ hwnd st).2.2 g).2.1.swapchain_data native
        = some d
      ∧ d.original_width = 1920 ∧ d.original_height = 1080
      ∧ d.override_active = true ∧ d.proxy_textures.length = n)
  ∧ (∀ o ∈ (initialize_swapchain (fun _ => false) false
        ⟨some dev, n, bb, aw, ah, fmt, native, hwnd⟩
        (handle_create_swapchain ⟨3840, 2160, sfilt, mode, block, tmon⟩
          ⟨1920, 1080, fs, pf⟩ hwnd st).2.2 g).2.2.created,
       ∀ w h, o.kind = GpuObjKind.tex w h → w = 1920 ∧ h = 1080) := by
  have hspec := handle_create_override_spec
    ⟨3840, 2160, sfilt, mode, block, tmon⟩ ⟨1920, 1080, fs, pf⟩ hwnd st
    rfl (Or.inl (show (1920 : Nat) ≠ 3840 from by decide)) hhw
  have hpend1 : getEntry (handle_create_swapchain
      ⟨3840, 2160, sfilt, mode, block, tmon⟩
      ⟨1920, 1080, fs, pf⟩ hwnd st).2.2.pending_swapchains hwnd
      = some ⟨1920, 1080⟩ := by
    rw [hspec.2.2.2]
    exact getEntry_setEntry_self st.pending_swapchains hwnd ⟨1920, 1080⟩
  have hnew1 : getEntry (handle_create_swapchain
      ⟨3840, 2160, sfilt, mode, block, tmon⟩
      ⟨1920, 1080, fs, pf⟩ hwnd st).2.2.swapchain_data native = none := by
    rw [hspec.2.2.2]
    exact hnew
  have hrun := initialize_swapchain_noFail_run (fun _ => false) (fun _ => rfl)
    ⟨some dev, n, bb, aw, ah, fmt, native, hwnd⟩
    (handle_create_swapchain ⟨3840, 2160, sfilt, mode, block, tmon⟩
      ⟨1920, 1080, fs, pf⟩ hwnd st).2.2 g dev rfl hn hnew1 1920 1080 hpend1
  have hnodup1 : ((handle_create_swapchain
      ⟨3840, 2160, sfilt, mode, block, tmon⟩
      ⟨1920, 1080, fs, pf⟩ hwnd st).2.2.pending_swapchains.map Prod.fst).Nodup := by
    rw [hspec.2.2.2]
    exact setEntry_keys_nodup st.pending_swapchains hwnd ⟨1920, 1080⟩ hnodup
  have hcprS := create_proxy_resources_noFail (fun _ => false) (fun _ => rfl)
    (initRecord ⟨some dev, n, bb, aw, ah, fmt, native, hwnd⟩ dev 1920 1080)
    ⟨some dev, n, bb, aw, ah, fmt, native, hwnd⟩ g
  rcases create_proxy_resources_fields (fun _ => false)
    (initRecord ⟨some dev, n, bb, aw, ah, fmt, native, hwnd⟩ dev 1920 1080)
    ⟨some dev, n, bb, aw, ah, fmt, native, hwnd⟩ g with ⟨t1, r1, s1, a1, hf1⟩
  rcases create_copy_pipeline_fields (fun _ => false)
    (create_proxy_resources (fun _ => false)
      (initRecord ⟨some dev, n, bb, aw, ah, fmt, native, hwnd⟩ dev 1920 1080)
      ⟨some dev, n, bb, aw, ah, fmt, native, hwnd⟩ g).2.1
    (create_proxy_resources (fun _ => false)
      (initRecord ⟨some dev, n, bb, aw, ah, fmt, native, hwnd⟩ dev 1920 1080)
      ⟨some dev, n, bb, aw, ah, fmt, native, hwnd⟩ g).2.2 with ⟨x1, y1, z1, hf2⟩
  refine ⟨hspec.1, hspec.2.1, hspec.2.2.1, hpend1, ?_, ?_, ?_, ?_⟩
  · rw [hrun]
  · rw [hrun]
    exact getEntry_eraseEntry_self _ hwnd hnodup1
  · rw [hrun]
    refine ⟨_, getEntry_setEntry_self _ _ _, ?_, ?_, ?_, ?_⟩
    · rw [hf2, hf1]
      rfl
    · rw [hf2, hf1]
      rfl
    · rw [hf2, hf1]
      rfl
    · rw [hf2]
      exact (create_proxy_resources_lengths (fun _ => false)
        (initRecord ⟨some dev, n, bb, aw, ah, fmt, native, hwnd⟩ dev 1920 1080)
        ⟨some dev, n, bb, aw, ah, fmt, native, hwnd⟩ g hcprS).1
  · intro o ho w h hk
    rw [hrun] at ho
    rcases create_copy_pipeline_created (fun _ => false)
      (create_proxy_resources (fun _ => false)
        (initRecord ⟨some dev, n, bb, aw, ah, fmt, native, hwnd⟩ dev 1920 1080)
        ⟨some dev, n, bb, aw, ah, fmt, native, hwnd⟩ g).2.1
      (create_proxy_resources (fun _ => false)
        (initRecord ⟨some dev, n, bb, aw, ah, fmt, native, hwnd⟩ dev 1920 1080)
        ⟨some dev, n, bb, aw, ah, fmt, native, hwnd⟩ g).2.2 o ho
      with h1 | h1 | h1 | h1
    · rcases create_proxy_resources_created (fun _ => false)
        (initRecord ⟨some dev, n, bb, aw, ah, fmt, native, hwnd⟩ dev 1920 1080)
        ⟨some dev, n, bb, aw, ah, fmt, native, hwnd⟩ g o h1
        with h2 | h2 | h2 | h2
      · rw [hg] at h2
        exact absurd h2 (List.not_mem_nil o)
      · have h3 : o.kind = GpuObjKind.tex 1920 1080 := h2
        rw [hk] at h3
        injection h3 with hw2 hh2
        exact ⟨hw2, hh2⟩
      · rw [hk] at h2
        simp at h2
      · rw [hk] at h2
        simp at h2
    · rw [hk] at h1
      simp at h1
    · rw [hk] at h1
      simp at h1
    · rw [hk] at h1
      simp at h1

/-- C1 witness: concrete round trip with window handle 5, native
swapchain handle 50, two back buffers and a fresh state. -/
theorem C1_round_trip_witness :
    (handle_create_swapchain ⟨3840, 2160, 1, FullscreenMode.Unchanged, false, 0⟩
        ⟨1920, 1080, false, 0⟩ 5 ⟨[], []⟩).1 = true
  ∧ getEntry (handle_create_swapchain
        ⟨3840, 2160, 1, FullscreenMode.Unchanged, false, 0⟩
        ⟨1920, 1080, false, 0⟩ 5 ⟨[], []⟩).2.2.pending_swapchains 5
      = some ⟨1920, 1080⟩
  ∧ (initialize_swapchain (fun _ => false) false
        ⟨some 1, 2, fun i => 100 + i, 3840, 2160, 7, 50, 5⟩
        (handle_create_swapchain ⟨3840, 2160, 1, FullscreenMode.Unchanged, false, 0⟩
          ⟨1920, 1080, false, 0⟩ 5 ⟨[], []⟩).2.2 ⟨0, 0, [], []⟩).1 = true
  ∧ getEntry (initialize_swapchain (fun _ => false) false
        ⟨some 1, 2, fun i => 100 + i, 3840, 2160, 7, 50, 5⟩
        (handle_create_swapchain ⟨3840, 2160, 1, FullscreenMode.Unchanged, false, 0⟩
          ⟨1920, 1080, false, 0⟩ 5 ⟨[], []⟩).2.2 ⟨0, 0, [], []⟩).2.1.pending_swapchains 5
      = none :=
  have h := C1_resolution_override_round_trip 1 0 FullscreenMode.Unchanged false
    false 0 5 (by decide) ⟨[], []⟩ (by decide) 1 2 (by decide)
    (fun i => 100 + i) 3840 2160 7 50 rfl ⟨0, 0, [], []⟩ rfl
  ⟨h.1, h.2.2.2.1, h.2.2.2.2.1, h.2.2.2.2.2.1⟩

/-- Liveness after a single destroy. -/
theorem mem_destroyObj_live (h : Nat) (g : GpuState) (o : GpuObject) :
    o ∈ (destroyObj h g).live ↔ o ∈ g.live ∧ o.handle ≠ h := by
  unfold destroyObj
  dsimp only
  rw [List.mem_filter]
  simp

/-- Liveness after a guarded destroy. -/
theorem mem_destroyIfNonzero_live (h : Nat) (g : GpuState) (o : GpuObject) :
    o ∈ (destroyIfNonzero h g).live ↔
      o ∈ g.live ∧ ¬(h ≠ 0 ∧ o.handle = h) := by
  unfold destroyIfNonzero
  by_cases hz : h ≠ 0
  · rw [if_pos hz, mem_destroyObj_live]
    constructor
    · rintro ⟨h1, h2⟩
      exact ⟨h1, fun hc => h2 hc.2⟩
    · rintro ⟨h1, h2⟩
      exact ⟨h1, fun he => h2 ⟨hz, he⟩⟩
  · rw [if_neg hz]
    constructor
    · intro h1
      exact ⟨h1, fun hc => hz hc.1⟩
    · exact And.left

/-- Liveness after destroying a whole vector. -/
theorem mem_destroyList_live (hs : List Nat) :
    ∀ (g : GpuState) (o : GpuObject),
      o ∈ (destroyList hs g).live ↔
        o ∈ g.live ∧ ∀ h2 ∈ hs, ¬(h2 ≠ 0 ∧ o.handle = h2) := by
  induction hs with
  | nil =>
    intro g o
    simp [destroyList]
  | cons h2 rest ih =>
    intro g o
    have hstep : destroyList (h2 :: rest) g
        = destroyList rest (destroyIfNonzero h2 g) := rfl
    rw [hstep, ih, mem_destroyIfNonzero_live]
    constructor
    · rintro ⟨⟨h3, h4⟩, h5⟩
      refine ⟨h3, fun x hx => ?_⟩
      rcases List.mem_cons.mp hx with hx | hx
      · exact hx ▸ h4
      · exact h5 x hx
    · rintro ⟨h3, h4⟩
      exact ⟨⟨h3, h4 h2 (List.mem_cons_self _ _)⟩,
             fun x hx => h4 x (List.mem_cons_of_mem _ hx)⟩

/-- `cleanup` never resurrects objects: an empty live set stays empty. -/
theorem cleanup_live_of_nil (d : SwapchainData) (g : GpuState)
    (hg : g.live = []) : (d.cleanup g).2.live = [] := by
  unfold SwapchainData.cleanup
  cases hdv : d.device_id with
  | none =>
    exact hg
  | some dv =>
    dsimp only
    rw [List.eq_nil_iff_forall_not_mem]
    intro o ho
    rw [mem_destroyList_live, mem_destroyList_live, mem_destroyList_live,
        mem_destroyIfNonzero_live, mem_destroyIfNonzero_live,
        mem_destroyIfNonzero_live] at ho
    rw [hg] at ho
    exact absurd ho.1.1.1.1.1.1 (List.not_mem_nil o)

/-- When every live object's handle is stored somewhere in the record,
`cleanup` releases all of them. -/
theorem cleanup_live_nil (d : SwapchainData) (g : GpuState) (dv : Nat)
    (hdev : d.device_id = some dv)
    (hcov : ∀ o ∈ g.live, o.handle ≠ 0 ∧
      (o.handle = d.copy_pipeline ∨ o.handle = d.copy_pipeline_layout ∨
       o.handle = d.copy_sampler ∨ o.handle ∈ d.proxy_rtvs ∨
       o.handle ∈ d.proxy_srvs ∨ o.handle ∈ d.proxy_textures)) :
    (d.cleanup g).2.live = [] := by
  unfold SwapchainData.cleanup
  rw [hdev]
  dsimp only
  rw [List.eq_nil_iff_forall_not_mem]
  intro o ho
  rw [mem_destroyList_live, mem_destroyList_live, mem_destroyList_live,
      mem_destroyIfNonzero_live, mem_destroyIfNonzero_live,
      mem_destroyIfNonzero_live] at ho
  rcases ho with ⟨⟨⟨⟨⟨⟨hmem, hpipe⟩, hlay⟩, hsmp⟩, hrtv⟩, hsrv⟩, htex⟩
  rcases hcov o hmem with ⟨hnz, hloc⟩
  rcases hloc with hl | hl | hl | hl | hl | hl
  · exact hpipe ⟨hl ▸ hnz, hl⟩
  · exact hlay ⟨hl ▸ hnz, hl⟩
  · exact hsmp ⟨hl ▸ hnz, hl⟩
  · exact hrtv o.handle hl ⟨hnz, rfl⟩
  · exact hsrv o.handle hl ⟨hnz, rfl⟩
  · exact htex o.handle hl ⟨hnz, rfl⟩

/-- Every object live after the texture+RTV loop is either inherited or
has its (nonzero) handle in one of the returned prefixes. -/
theorem proxyTexLoop_live (failAt : Nat → Bool) (ow oh : Nat) :
    ∀ k g o, o ∈ (proxyTexLoop failAt ow oh k g).2.2.2.live →
      o ∈ g.live ∨ (o.handle ≠ 0 ∧
        (o.handle ∈ (proxyTexLoop failAt ow oh k g).2.1 ∨
         o.handle ∈ (proxyTexLoop failAt ow oh k g).2.2.1)) := by
  intro k
  induction k with
  | zero =>
    intro g o h
    exact Or.inl h
  | succ n ih =>
    intro g o h
    unfold proxyTexLoop at h ⊢
    by_cases h1 : failAt g.callIdx = true
    · rw [createObj_eq_fail failAt _ g h1] at h ⊢
      exact Or.inl h
    · rw [createObj_eq_succ failAt _ g (Bool.eq_false_iff.mpr h1)] at h ⊢
      dsimp only at h ⊢
      by_cases h2 : failAt (g.callIdx + 1) = true
      · rw [createObj_eq_fail failAt _ _ (by simpa using h2)] at h ⊢
        dsimp only at h ⊢
        rcases List.mem_append.mp h with h | h
        · exact Or.inl h
        · simp only [List.mem_singleton] at h
          refine Or.inr ⟨by rw [h]; exact Nat.succ_ne_zero _, Or.inl ?_⟩
          rw [h]
          exact List.mem_singleton.mpr rfl
      · rw [createObj_eq_succ failAt _ _ (by simpa using (Bool.eq_false_iff.mpr h2))] at h ⊢
        dsimp only at h ⊢
        rcases ih _ o h with h3 | h3
        · rcases List.mem_append.mp h3 with h4 | h4
          · rcases List.mem_append.mp h4 with h5 | h5
            · exact Or.inl h5
            · simp only [List.mem_singleton] at h5
              refine Or.inr ⟨by rw [h5]; exact Nat.succ_ne_zero _, Or.inl ?_⟩
              rw [h5]
              exact List.mem_cons_self _ _
          · simp only [List.mem_singleton] at h4
            refine Or.inr ⟨by rw [h4]; exact Nat.succ_ne_zero _, Or.inr ?_⟩
            rw [h4]
            exact List.mem_cons_self _ _
        · rcases h3 with ⟨hnz, h3 | h3⟩
          · exact Or.inr ⟨hnz, Or.inl (List.mem_cons_of_mem _ h3)⟩
          · exact Or.inr ⟨hnz, Or.inr (List.mem_cons_of_mem _ h3)⟩

/-- Every object live after the SRV loop is either inherited or has its
(nonzero) handle in the returned prefix. -/
theorem proxySrvLoop_live (failAt : Nat → Bool) :
    ∀ k g o, o ∈ (proxySrvLoop failAt k g).2.2.live →
      o ∈ g.live ∨ (o.handle ≠ 0 ∧ o.handle ∈ (proxySrvLoop failAt k g).2.1) := by
  intro k
  induction k with
  | zero =>
    intro g o h
    exact Or.inl h
  | succ n ih =>
    intro g o h
    unfold proxySrvLoop at h ⊢
    by_cases h1 : failAt g.callIdx = true
    · rw [createObj_eq_fail failAt _ g h1] at h ⊢
      exact Or.inl h
    · rw [createObj_eq_succ failAt _ g (Bool.eq_false_iff.mpr h1)] at h ⊢
      dsimp only at h ⊢
      rcases ih _ o h with h3 | h3
      · rcases List.mem_append.mp h3 with h4 | h4
        · exact Or.inl h4
        · simp only [List.mem_singleton] at h4
          refine Or.inr ⟨by rw [h4]; exact Nat.succ_ne_zero _, ?_⟩
          rw [h4]
          exact List.mem_cons_self _ _
      · exact Or.inr ⟨h3.1, List.mem_cons_of_mem _ h3.2⟩

/-- Every object live after proxy-resource creation is either inherited
or has its (nonzero) handle stored in one of the record's proxy
vectors — even on the partial-failure paths. -/
theorem create_proxy_resources_live (failAt : Nat → Bool) (d : SwapchainData)
    (sc : SwapchainModel) (g : GpuState) (o : GpuObject)
    (h : o ∈ (create_proxy_resources failAt d sc g).2.2.live) :
    o ∈ g.live ∨ (o.handle ≠ 0 ∧
      (o.handle ∈ (create_proxy_resources failAt d sc g).2.1.proxy_textures ∨
       o.handle ∈ (create_proxy_resources failAt d sc g).2.1.proxy_rtvs ∨
       o.handle ∈ (create_proxy_resources failAt d sc g).2.1.proxy_srvs)) := by
  unfold create_proxy_resources at h ⊢
  try dsimp only at h ⊢
  by_cases h1 : (proxyTexLoop failAt d.original_width d.original_height
      sc.back_buffer_count g).1 = false
  · rw [if_pos h1] at h ⊢
    dsimp only at h ⊢
    rcases proxyTexLoop_live failAt d.original_width d.original_height
      sc.back_buffer_count g o h with h2 | ⟨hnz, h2 | h2⟩
    · exact Or.inl h2
    · exact Or.inr ⟨hnz, Or.inl (List.mem_append_left _ h2)⟩
    · exact Or.inr ⟨hnz, Or.inr (Or.inl (List.mem_append_left _ h2))⟩
  · rw [if_neg h1] at h ⊢
    try dsimp only at h ⊢
    by_cases h2 : (proxySrvLoop failAt sc.back_buffer_count
        (proxyTexLoop failAt d.original_width d.original_height
          sc.back_buffer_count g).2.2.2).1 = false
    · rw [if_pos h2] at h ⊢
      dsimp only at h ⊢
      rcases proxySrvLoop_live failAt sc.back_buffer_count _ o h with h3 | ⟨hnz, h3⟩
      · rcases proxyTexLoop_live failAt d.original_width d.original_height
          sc.back_buffer_count g o h3 with h4 | ⟨hnz, h4 | h4⟩
        · exact Or.inl h4
        · exact Or.inr ⟨hnz, Or.inl (List.mem_append_left _ h4)⟩
        · exact Or.inr ⟨hnz, Or.inr (Or.inl (List.mem_append_left _ h4))⟩
      · exact Or.inr ⟨hnz, Or.inr (Or.inr (List.mem_append_left _ h3))⟩
    · rw [if_neg h2] at h ⊢
      dsimp only at h ⊢
      rcases proxySrvLoop_live failAt sc.back_buffer_count _ o h with h3 | ⟨hnz, h3⟩
      · rcases proxyTexLoop_live failAt d.original_width d.original_height
          sc.back_buffer_count g o h3 with h4 | ⟨hnz, h4 | h4⟩
        · exact Or.inl h4
        · exact Or.inr ⟨hnz, Or.inl (List.mem_append_left _ h4)⟩
        · exact Or.inr ⟨hnz, Or.inr (Or.inl (List.mem_append_left _ h4))⟩
      · exact Or.inr ⟨hnz, Or.inr (Or.inr (List.mem_append_left _ h3))⟩

/-- Every object live after the pipeline build is either inherited or has
its (nonzero) handle stored in one of the record's pipeline fields —
even on the partial-failure paths. -/
theorem create_copy_pipeline_live (failAt : Nat → Bool) (d : SwapchainData)
    (g : GpuState) (o : GpuObject)
    (h : o ∈ (create_copy_pipeline failAt d g).2.2.live) :
    o ∈ g.live ∨ (o.handle ≠ 0 ∧
      (o.handle = (create_copy_pipeline failAt d g).2.1.copy_pipeline_layout ∨
       o.handle = (create_copy_pipeline failAt d g).2.1.copy_pipeline ∨
       o.handle = (create_copy_pipeline failAt d g).2.1.copy_sampler)) := by
  unfold create_copy_pipeline at h ⊢
  by_cases h1 : failAt g.callIdx = true
  · rw [createObj_eq_fail failAt _ g h1] at h ⊢
    exact Or.inl h
  · rw [createObj_eq_succ failAt _ g (Bool.eq_false_iff.mpr h1)] at h ⊢
    dsimp only at h ⊢
    by_cases h2 : failAt (g.callIdx + 1) = true
    · rw [createObj_eq_fail failAt _ _ (by simpa using h2)] at h ⊢
      dsimp only at h ⊢
      rcases List.mem_append.mp h with h3 | h3
      · exact Or.inl h3
      · simp only [List.mem_singleton] at h3
        exact Or.inr ⟨by rw [h3]; exact Nat.succ_ne_zero _, Or.inl (by rw [h3])⟩
    · rw [createObj_eq_succ failAt _ _ (by simpa using (Bool.eq_false_iff.mpr h2))] at h ⊢
      dsimp only at h ⊢
      by_cases h3 : failAt (g.callIdx + 1 + 1) = true
      · rw [createObj_eq_fail failAt _ _ (by simpa using h3)] at h ⊢
        dsimp only at h ⊢
        rcases List.mem_append.mp h with h4 | h4
        · rcases List.mem_append.mp h4 with h5 | h5
          · exact Or.inl h5
          · simp only [List.mem_singleton] at h5
            exact Or.inr ⟨by rw [h5]; exact Nat.succ_ne_zero _, Or.inl (by rw [h5])⟩
        · simp only [List.mem_singleton] at h4
          exact Or.inr ⟨by rw [h4]; exact Nat.succ_ne_zero _,
            Or.inr (Or.inl (by rw [h4]))⟩
      · rw [createObj_eq_succ failAt _ _ (by simpa using (Bool.eq_false_iff.mpr h3))] at h ⊢
        dsimp only at h ⊢
        rcases List.mem_append.mp h with h4 | h4
        · rcases List.mem_append.mp h4 with h5 | h5
          · rcases List.mem_append.mp h5 with h6 | h6
            · exact Or.inl h6
            · simp only [List.mem_singleton] at h6
              exact Or.inr ⟨by rw [h6]; exact Nat.succ_ne_zero _, Or.inl (by rw [h6])⟩
          · simp only [List.mem_singleton] at h5
            exact Or.inr ⟨by rw [h5]; exact Nat.succ_ne_zero _,
              Or.inr (Or.inl (by rw [h5]))⟩
        · simp only [List.mem_singleton] at h4
          exact Or.inr ⟨by rw [h4]; exact Nat.succ_ne_zero _,
            Or.inr (Or.inr (by rw [h4]))⟩

/-- When the build tail of `initialize_swapchain` fails, every GPU object
created during the call has been released (no object is left live), and
the record stored in the table is emptied by `cleanup` but still carries
`override_active = true`. -/
theorem initialize_build_fail (failAt : Nat → Bool) (sc : SwapchainModel)
    (st : ManagerState) (d : SwapchainData) (g : GpuState) (dv : Nat)
    (hdev : d.device_id = some dv) (hover : d.override_active = true)
    (hlive : g.live = [])
    (hres : (initialize_swapchain_build failAt sc st d g).1 = false) :
    (initialize_swapchain_build failAt sc st d g).2.2.live = []
  ∧ ∃ drec, getEntry (initialize_swapchain_build failAt sc st d g).2.1.swapchain_data
        sc.native_handle = some drec
      ∧ drec.override_active = true
      ∧ drec.proxy_textures = [] ∧ drec.proxy_rtvs = [] ∧ drec.proxy_srvs = []
      ∧ drec.actual_back_buffers = []
      ∧ drec.copy_pipeline = 0 ∧ drec.copy_pipeline_layout = 0
      ∧ drec.copy_sampler = 0 := by
  rcases create_proxy_resources_fields failAt d sc g with ⟨t1, r1, s1, a1, hf1⟩
  unfold initialize_swapchain_build at hres ⊢
  try dsimp only at hres ⊢
  by_cases h1 : (create_proxy_resources failAt d sc g).1 = false
  · rw [if_pos h1] at hres ⊢
    dsimp only at hres ⊢
    constructor
    · refine cleanup_live_nil _ _ dv ?_ ?_
      · rw [hf1]
        exact hdev
      · intro o ho
        rcases create_proxy_resources_live failAt d sc g o ho with h2 | ⟨hnz, h2⟩
        · rw [hlive] at h2
          exact absurd h2 (List.not_mem_nil o)
        · refine ⟨hnz, ?_⟩
          rcases h2 with h2 | h2 | h2
          · exact Or.inr (Or.inr (Or.inr (Or.inr (Or.inr h2))))
          · exact Or.inr (Or.inr (Or.inr (Or.inl h2)))
          · exact Or.inr (Or.inr (Or.inr (Or.inr (Or.inl h2))))
    · refine ⟨_, getEntry_setEntry_self _ _ _, ?_, rfl, rfl, rfl, rfl, rfl, rfl, rfl⟩
      have h2 : ((create_proxy_resources failAt d sc g).2.1.cleanup
          (create_proxy_resources failAt d sc g).2.2).1.override_active
          = (create_proxy_resources failAt d sc g).2.1.override_active := rfl
      rw [h2, hf1]
      exact hover
  · rw [if_neg h1] at hres ⊢
    try dsimp only at hres ⊢
    rcases create_copy_pipeline_fields failAt
      (create_proxy_resources failAt d sc g).2.1
      (create_proxy_resources failAt d sc g).2.2 with ⟨x1, y1, z1, hf2⟩
    by_cases h2 : (create_copy_pipeline failAt
        (create_proxy_resources failAt d sc g).2.1
        (create_proxy_resources failAt d sc g).2.2).1 = false
    · rw [if_pos h2] at hres ⊢
      dsimp only at hres ⊢
      constructor
      · refine cleanup_live_nil _ _ dv ?_ ?_
        · rw [hf2, hf1]
          exact hdev
        · intro o ho
          rcases create_copy_pipeline_live failAt
            (create_proxy_resources failAt d sc g).2.1
            (create_proxy_resources failAt d sc g).2.2 o ho with h3 | ⟨hnz, h3⟩
          · rcases create_proxy_resources_live failAt d sc g o h3
              with h4 | ⟨hnz, h4⟩
            · rw [hlive] at h4
              exact absurd h4 (List.not_mem_nil o)
            · refine ⟨hnz, ?_⟩
              have htex : (create_copy_pipeline failAt
                  (create_proxy_resources failAt d sc g).2.1
                  (create_proxy_resources failAt d sc g).2.2).2.1.proxy_textures
                  = (create_proxy_resources failAt d sc g).2.1.proxy_textures := by
                rw [hf2]
              have hrtv : (create_copy_pipeline failAt
                  (create_proxy_resources failAt d sc g).2.1
                  (create_proxy_resources failAt d sc g).2.2).2.1.proxy_rtvs
                  = (create_proxy_resources failAt d sc g).2.1.proxy_rtvs := by
                rw [hf2]
              have hsrv : (create_copy_pipeline failAt
                  (create_proxy_resources failAt d sc g).2.1
                  (create_proxy_resources failAt d sc g).2.2).2.1.proxy_srvs
                  = (create_proxy_resources failAt d sc g).2.1.proxy_srvs := by
                rw [hf2]
              rcases h4 with h4 | h4 | h4
              · exact Or.inr (Or.inr (Or.inr (Or.inr (Or.inr (htex ▸ h4)))))
              · exact Or.inr (Or.inr (Or.inr (Or.inl (hrtv ▸ h4))))
              · exact Or.inr (Or.inr (Or.inr (Or.inr (Or.inl (hsrv ▸ h4)))))
          · refine ⟨hnz, ?_⟩
            rcases h3 with h3 | h3 | h3
            · exact Or.inr (Or.inl h3)
            · exact Or.inl h3
            · exact Or.inr (Or.inr (Or.inl h3))
      · refine ⟨_, getEntry_setEntry_self _ _ _, ?_, rfl, rfl, rfl, rfl, rfl, rfl, rfl⟩
        have h3 : ((create_copy_pipeline failAt
            (create_proxy_resources failAt d sc g).2.1
            (create_proxy_resources failAt d sc g).2.2).2.1.cleanup
            (create_copy_pipeline failAt
              (create_proxy_resources failAt d sc g).2.1
              (create_proxy_resources failAt d sc g).2.2).2.2).1.override_active
            = (create_copy_pipeline failAt
                (create_proxy_resources failAt d sc g).2.1
                (create_proxy_resources failAt d sc g).2.2).2.1.override_active := rfl
        rw [h3, hf2, hf1]
        exact hover
    · rw [if_neg h2] at hres
      dsimp only at hres
      exact absurd hres (by simp)

/-- C2 counterexample: three back buffers with the third creation call
(the second proxy texture, call index 2 after texture 0 and RTV 0)
failing.  `initialize_swapchain` reports failure and two objects were
created earlier in the call — yet the stored record's `override_active`
is `true`, not the `false` the claim asserts, and the record is still
matched as an active override by `find_active_data_for_device`. -/
theorem C2_counterexample :
    (initialize_swapchain (fun i => decide (i = 2)) false
        ⟨some 1, 3, fun i => 100 + i, 3840, 2160, 0, 77, 5⟩
        ⟨[], [(5, ⟨1920, 1080⟩)]⟩ ⟨0, 0, [], []⟩).1 = false
  ∧ (initialize_swapchain (fun i => decide (i = 2)) false
        ⟨some 1, 3, fun i => 100 + i, 3840, 2160, 0, 77, 5⟩
        ⟨[], [(5, ⟨1920, 1080⟩)]⟩ ⟨0, 0, [], []⟩).2.2.created.length = 2
  ∧ (getEntry (initialize_swapchain (fun i => decide (i = 2)) false
        ⟨some 1, 3, fun i => 100 + i, 3840, 2160, 0, 77, 5⟩
        ⟨[], [(5, ⟨1920, 1080⟩)]⟩ ⟨0, 0, [], []⟩).2.1.swapchain_data 77).map
        SwapchainData.override_active = some true
  ∧ find_active_data_for_device (initialize_swapchain (fun i => decide (i = 2)) false
        ⟨some 1, 3, fun i => 100 + i, 3840, 2160, 0, 77, 5⟩
        ⟨[], [(5, ⟨1920, 1080⟩)]⟩ ⟨0, 0, [], []⟩).2.1 1 ≠ none := by
  refine ⟨?_, ?_, ?_, ?_⟩ <;> decide

/-- C2 (amended): for every `initialize_swapchain` call that reaches the
resource-building phase (non-null swapchain, device available, nonzero
back-buffer count) and fails, starting from a state with no live GPU
objects, every GPU object created during the call is released before the
failure is reported (no object is left live) and the stored record's
proxy vectors and pipeline handles are emptied — but `override_active`
is left TRUE (it is set before resource creation and `cleanup()` does
not reset it), so the emptied record is still matched as an active
override by later bind handlers. -/
theorem C2_partial_failure_release (failAt : Nat → Bool) (sc : SwapchainModel)
    (st : ManagerState) (g : GpuState) (dev : Nat)
    (hdev : sc.device_id = some dev) (hbc : ¬ sc.back_buffer_count = 0)
    (hlive : g.live = [])
    (hres : (initialize_swapchain failAt false sc st g).1 = false) :
    (initialize_swapchain failAt false sc st g).2.2.live = []
  ∧ ∃ drec, getEntry (initialize_swapchain failAt false sc st g).2.1.swapchain_data
        sc.native_handle = some drec
      ∧ drec.override_active = true
      ∧ drec.proxy_textures = [] ∧ drec.proxy_rtvs = [] ∧ drec.proxy_srvs = []
      ∧ drec.actual_back_buffers = []
      ∧ drec.copy_pipeline = 0 ∧ drec.copy_pipeline_layout = 0
      ∧ drec.copy_sampler = 0 := by
  have hinit : ∃ st1 d1 g1, initialize_swapchain failAt false sc st g
      = initialize_swapchain_build failAt sc st1 d1 g1
      ∧ d1.device_id = some dev ∧ d1.override_active = true ∧ g1.live = [] := by
    unfold initialize_swapchain
    rw [if_neg (by simp : ¬ (false : Bool) = true), hdev]
    dsimp only
    rw [if_neg hbc]
    rcases hq : retrieve_pending_info st sc.hwnd with ⟨qo, qst⟩
    cases hold : getEntry st.swapchain_data sc.native_handle with
    | none =>
      dsimp only
      cases qo with
      | none => exact ⟨qst, _, g, rfl, rfl, rfl, hlive⟩
      | some info => exact ⟨qst, _, g, rfl, rfl, rfl, hlive⟩
    | some old =>
      dsimp only
      cases qo with
      | none =>
        exact ⟨qst, _, (old.cleanup g).2, rfl, rfl, rfl, cleanup_live_of_nil old g hlive⟩
      | some info =>
        exact ⟨qst, _, (old.cleanup g).2, rfl, rfl, rfl, cleanup_live_of_nil old g hlive⟩
  rcases hinit with ⟨st1, d1, g1, heq, hd1, ho1, hg1⟩
  rw [heq] at hres ⊢
  exact initialize_build_fail failAt sc st1 d1 g1 dev hd1 ho1 hg1 hres

/-- C2 witness: instantiation of the amended theorem at the concrete
failing-second-texture scenario of the counterexample. -/
theorem C2_partial_failure_witness :
    ((initialize_swapchain (fun i => decide (i = 2)) false
        ⟨some 1, 3, fun i => 100 + i, 3840, 2160, 0, 77, 5⟩
        ⟨[], [(5, ⟨1920, 1080⟩)]⟩ ⟨0, 0, [], []⟩).1 = false)
  ∧ (initialize_swapchain (fun i => decide (i = 2)) false
        ⟨some 1, 3, fun i => 100 + i, 3840, 2160, 0, 77, 5⟩
        ⟨[], [(5, ⟨1920, 1080⟩)]⟩ ⟨0, 0, [], []⟩).2.2.live = [] :=
  ⟨by decide,
   (C2_partial_failure_release (fun i => decide (i = 2))
      ⟨some 1, 3, fun i => 100 + i, 3840, 2160, 0, 77, 5⟩
      ⟨[], [(5, ⟨1920, 1080⟩)]⟩ ⟨0, 0, [], []⟩ 1 rfl (by decide) rfl
      (by decide)).1⟩

/-- A nonzero `getD` read proves the index was in bounds (the
out-of-range default is the null handle 0). -/
theorem lt_length_of_getD_ne (l : List Nat) (i : Nat) (h : l.getD i 0 ≠ 0) :
    i < l.length := by
  by_contra hge
  exact h (List.getD_eq_default l 0 (Nat.le_of_not_lt hge))

/-- The pending read-and-erase never touches the swapchain-record
table. -/
theorem retrieve_pending_snd_swapchain_data (st : ManagerState) (hwnd : Nat) :
    (retrieve_pending_info st hwnd).2.swapchain_data = st.swapchain_data := by
  unfold retrieve_pending_info
  cases getEntry st.pending_swapchains hwnd <;> rfl

/-- Record-size invariant through the build tail: every record readable
after it either kept its old lengths or has freshly equal vector
lengths (all-empty after a failed build's `cleanup`, or one entry per
back buffer on success). -/
theorem initialize_build_sizes (failAt : Nat → Bool) (sc : SwapchainModel)
    (st : ManagerState) (d : SwapchainData) (g : GpuState) (k : Nat)
    (d2 : SwapchainData)
    (hget : getEntry (initialize_swapchain_build failAt sc st d g).2.1.swapchain_data k
      = some d2)
    (hok : ∀ d3, getEntry st.swapchain_data k = some d3 →
      d3.proxy_srvs.length = d3.proxy_textures.length ∧
      d3.proxy_rtvs.length = d3.proxy_textures.length) :
    d2.proxy_srvs.length = d2.proxy_textures.length ∧
    d2.proxy_rtvs.length = d2.proxy_textures.length := by
  unfold initialize_swapchain_build at hget
  try dsimp only at hget
  by_cases hk : sc.native_handle = k
  · subst hk
    by_cases h1 : (create_proxy_resources failAt d sc g).1 = false
    · rw [if_pos h1] at hget
      try dsimp only at hget
      rw [getEntry_setEntry_self] at hget
      cases Option.some.inj hget
      exact ⟨rfl, rfl⟩
    · rw [if_neg h1] at hget
      try dsimp only at hget
      by_cases h2 : (create_copy_pipeline failAt
          (create_proxy_resources failAt d sc g).2.1
          (create_proxy_resources failAt d sc g).2.2).1 = false
      · rw [if_pos h2] at hget
        try dsimp only at hget
        rw [getEntry_setEntry_self] at hget
        cases Option.some.inj hget
        exact ⟨rfl, rfl⟩
      · rw [if_neg h2] at hget
        try dsimp only at hget
        rw [getEntry_setEntry_self] at hget
        cases Option.some.inj hget
        have hs : (create_proxy_resources failAt d sc g).1 = true := by
          cases hb : (create_proxy_resources failAt d sc g).1 with
          | true => rfl
          | false => exact absurd hb h1
        rcases create_proxy_resources_lengths failAt d sc g hs
          with ⟨hlt, hlr, hls, _⟩
        rcases create_copy_pipeline_fields failAt
          (create_proxy_resources failAt d sc g).2.1
          (create_proxy_resources failAt d sc g).2.2 with ⟨x1, y1, z1, hf2⟩
        rw [hf2]
        constructor
        · show (create_proxy_resources failAt d sc g).2.1.proxy_srvs.length
            = (create_proxy_resources failAt d sc g).2.1.proxy_textures.length
          rw [hls, hlt]
        · show (create_proxy_resources failAt d sc g).2.1.proxy_rtvs.length
            = (create_proxy_resources failAt d sc g).2.1.proxy_textures.length
          rw [hlr, hlt]
  · by_cases h1 : (create_proxy_resources failAt d sc g).1 = false
    · rw [if_pos h1] at hget
      try dsimp only at hget
      rw [getEntry_setEntry_ne _ _ _ _ hk] at hget
      exact hok d2 hget
    · rw [if_neg h1] at hget
      try dsimp only at hget
      by_cases h2 : (create_copy_pipeline failAt
          (create_proxy_resources failAt d sc g).2.1
          (create_proxy_resources failAt d sc g).2.2).1 = false
      · rw [if_pos h2] at hget
        try dsimp only at hget
        rw [getEntry_setEntry_ne _ _ _ _ hk] at hget
        exact hok d2 hget
      · rw [if_neg h2] at hget
        try dsimp only at hget
        rw [getEntry_setEntry_ne _ _ _ _ hk] at hget
        exact hok d2 hget

/-- C10: whenever `handle_present` actually records GPU commands, every
guard of the cascade held — the swapchain's record exists and is
override-active, the current back-buffer index is within both proxy
vectors (so all indexing into the record's proxy vectors is in bounds),
the proxy texture, real back buffer and proxy SRV handles are nonzero,
and queue, swapchain, device and immediate command list are available;
contrapositively, if any of the claim's guard conditions holds the
handler returns without recording any GPU commands.  In addition,
`initialize_swapchain` preserves the per-record invariant that the SRV
and RTV vectors have exactly as many entries as the texture vector,
which is what keeps the source's unchecked `proxy_srvs[current_index]`
access in bounds. -/
theorem C10_present_guarded :
    (∀ (st : ManagerState) (p : PresentContext),
      handle_present st p = true →
      p.scNull = false ∧ p.queueNull = false ∧ p.deviceNull = false
      ∧ p.cmdListNull = false
      ∧ ∃ data, getEntry st.swapchain_data p.native_handle = some data
          ∧ data.override_active = true
          ∧ p.current_index < data.proxy_textures.length
          ∧ p.current_index < data.proxy_srvs.length
          ∧ data.proxy_textures.getD p.current_index 0 ≠ 0
          ∧ p.back_buffer p.current_index ≠ 0
          ∧ data.proxy_srvs.getD p.current_index 0 ≠ 0)
  ∧ (∀ (failAt : Nat → Bool) (scNull : Bool) (sc : SwapchainModel)
        (st : ManagerState) (g : GpuState) (k : Nat) (d2 : SwapchainData),
      getEntry (initialize_swapchain failAt scNull sc st g).2.1.swapchain_data k
          = some d2 →
      (∀ d3, getEntry st.swapchain_data k = some d3 →
        d3.proxy_srvs.length = d3.proxy_textures.length ∧
        d3.proxy_rtvs.length = d3.proxy_textures.length) →
      d2.proxy_srvs.length = d2.proxy_textures.length ∧
      d2.proxy_rtvs.length = d2.proxy_textures.length) := by
  constructor
  · intro st p hres
    unfold handle_present at hres
    by_cases h1 : (p.scNull || p.queueNull) = true
    · rw [if_pos h1] at hres
      exact absurd hres (by simp)
    · rw [if_neg h1] at hres
      have hsq : p.scNull = false ∧ p.queueNull = false := by
        rcases Bool.or_eq_false_iff.mp (Bool.eq_false_iff.mpr h1) with ⟨ha, hb⟩
        exact ⟨ha, hb⟩
      cases hget : getEntry st.swapchain_data p.native_handle with
      | none =>
        rw [hget] at hres
        exact absurd hres (by simp)
      | some data =>
        rw [hget] at hres
        dsimp only at hres
        by_cases h2 : data.override_active = false
        · rw [if_pos h2] at hres
          exact absurd hres (by simp)
        · rw [if_neg h2] at hres
          by_cases h3 : p.deviceNull = true
          · rw [if_pos h3] at hres
            exact absurd hres (by simp)
          · rw [if_neg h3] at hres
            by_cases h4 : data.proxy_textures.length ≤ p.current_index
            · rw [if_pos h4] at hres
              exact absurd hres (by simp)
            · rw [if_neg h4] at hres
              by_cases h5 : data.proxy_textures.getD p.current_index 0 = 0
                  ∨ p.back_buffer p.current_index = 0
              · rw [if_pos h5] at hres
                exact absurd hres (by simp)
              · rw [if_neg h5] at hres
                by_cases h6 : p.cmdListNull = true
                · rw [if_pos h6] at hres
                  exact absurd hres (by simp)
                · rw [if_neg h6] at hres
                  by_cases h7 : data.proxy_srvs.getD p.current_index 0 = 0
                  · rw [if_pos h7] at hres
                    exact absurd hres (by simp)
                  · rw [if_neg h7] at hres
                    rcases not_or.mp h5 with ⟨h5a, h5b⟩
                    have h2t : data.override_active = true := by
                      cases hb : data.override_active with
                      | true => rfl
                      | false => exact absurd hb h2
                    exact ⟨hsq.1, hsq.2, Bool.eq_false_iff.mpr h3,
                      Bool.eq_false_iff.mpr h6, data, rfl,
                      h2t, Nat.lt_of_not_le h4,
                      lt_length_of_getD_ne _ _ h7, h5a, h5b, h7⟩
  · intro failAt scNull sc st g k d2 hget hok
    unfold initialize_swapchain at hget
    by_cases hsn : scNull = true
    · rw [if_pos hsn] at hget
      exact hok d2 hget
    · rw [if_neg hsn] at hget
      cases hdev : sc.device_id with
      | none =>
        rw [hdev] at hget
        exact hok d2 hget
      | some dev =>
        rw [hdev] at hget
        dsimp only at hget
        by_cases hbc : sc.back_buffer_count = 0
        · rw [if_pos hbc] at hget
          exact hok d2 hget
        · rw [if_neg hbc] at hget
          rcases hq : retrieve_pending_info st sc.hwnd with ⟨qo, qst⟩
          rw [hq] at hget
          try dsimp only at hget
          have hqsd : qst.swapchain_data = st.swapchain_data := by
            have h := congrArg (fun x => x.2.swapchain_data) hq
            dsimp only at h
            rw [retrieve_pending_snd_swapchain_data] at h
            exact h.symm
          have hok2 : ∀ d3, getEntry qst.swapchain_data k = some d3 →
              d3.proxy_srvs.length = d3.proxy_textures.length ∧
              d3.proxy_rtvs.length = d3.proxy_textures.length := by
            intro d3 h3
            rw [hqsd] at h3
            exact hok d3 h3
          cases hold : getEntry st.swapchain_data sc.native_handle with
          | none =>
            rw [hold] at hget
            dsimp only at hget
            cases qo with
            | none => exact initialize_build_sizes failAt sc qst _ _ k d2 hget hok2
            | some info => exact initialize_build_sizes failAt sc qst _ _ k d2 hget hok2
          | some old =>
            rw [hold] at hget
            dsimp only at hget
            cases qo with
            | none => exact initialize_build_sizes failAt sc qst _ _ k d2 hget hok2
            | some info => exact initialize_build_sizes failAt sc qst _ _ k d2 hget hok2

/-- C10 witness: a present on the tracked swapchain 100 of `c5st` with
back-buffer index 0 records commands, and the theorem yields the guard
facts, including in-bounds indices for both proxy vectors. -/
theorem C10_present_witness :
    handle_present c5st ⟨false, false, false, 100, 0, fun i => 10 + i, false, true⟩
      = true
  ∧ ∃ data, getEntry c5st.swapchain_data 100 = some data
      ∧ data.override_active = true
      ∧ 0 < data.proxy_textures.length
      ∧ 0 < data.proxy_srvs.length :=
  ⟨by decide,
   by
     have h := C10_present_guarded.1 c5st
       ⟨false, false, false, 100, 0, fun i => 10 + i, false, true⟩ (by decide)
     rcases h.2.2.2.2 with ⟨data, h1, h2, h3, h4, _⟩
     exact ⟨data, h1, h2, h3, h4⟩⟩

end SwapchainOverride
